import Mathlib

/-!
# RaspberryPilot: altitude hold (`altHold.c`) and flight controller (`flyControler.c`)

A shallow embedding of the two C files and theorems about it.

Conventions of the embedding.

* A C `float` is a rational (`ℚ`); infinities and NaN are outside the model.
  Where a sum or difference of floats decides a branch (the throttle band of
  `updateTargetAltitude`, the range test of `yawTransform`) it is rounded to
  IEEE binary32 by `float_round`, as the C code does; elsewhere values are
  carried exactly.  All comparisons and branches are the ones of the C text.
* The file-level `static` variables of both files, the function-level `static`
  variables (`lastThrottle`, `last_tv` of `updateTargetAltitude`, `output` of
  `getThrottleOffsetByAltHold`) and the PID records of `pid.c` form one `State`;
  every C function that writes one of them is a function `State → State`
  (or `State → result × State`).
* What a collaborator returns during one call (attitude estimator, motor driver
  accessors, throttle level, the clock, the distance sensor) is an input record
  (`Env`, `SamplerEnv`) or an explicit argument.
* `pidCalculation` lives in `pid.c`, which is not part of the two files; it is a
  field of `Env`, so every theorem holds for every PID law.
* The mutex around `altholdIsUpdate` makes the test-and-clear of `updateAltHold`
  and the set of `altHoldUpdate` atomic; each is one state transition here.
-/

namespace RaspberryPilot

/-! ## Time -/

/-- Clock reading, `struct timeval` of `<sys/time.h>`. -/
structure timeval where
  tv_sec : Int
  tv_usec : Int
deriving DecidableEq

/-- Seconds since the epoch denoted by a clock reading. -/
def timeval.toSec (tv : timeval) : ℚ :=
  (tv.tv_sec : ℚ) + (tv.tv_usec : ℚ) / 1000000

/-- Modelled from the spec: `GET_SEC_TIMEDIFF` of `commonLib.h` (not among the
sources); the spec calls it the "elapsed time since `lastChangeTimestamp`", in
seconds. -/
def GET_SEC_TIMEDIFF (tv last_tv : timeval) : ℚ :=
  ((tv.tv_sec - last_tv.tv_sec : Int) : ℚ)
    + ((tv.tv_usec - last_tv.tv_usec : Int) : ℚ) / 1000000

/-! ## Float arithmetic -/

/-- The integer nearest to `x`, a tie going to the even one. -/
def roundHalfEven (x : ℚ) : Int :=
  let f := ⌊x⌋
  if x - f < 1 / 2 then f
  else if 1 / 2 < x - f then f + 1
  else if f % 2 = 0 then f else f + 1

/-- The exponent `k` of the spacing `2 ^ k` of binary32 values around `x ≠ 0`:
24 significant bits, smallest normal exponent −126. -/
def float_quantum (x : ℚ) : Int := max (Int.log 2 |x|) (-126) - 23

/-- The C `float` (IEEE binary32) nearest to `x`, ties to even.  Overflow beyond
`FLT_MAX` is outside the model. -/
@[irreducible]
def float_round (x : ℚ) : ℚ :=
  if x = 0 then 0 else (roundHalfEven (x / 2 ^ float_quantum x) : ℚ) * 2 ^ float_quantum x

/-- The C expression `a + b` on floats. -/
def float_add (a b : ℚ) : ℚ := float_round (a + b)

/-- The C expression `a - b` on floats.  Subtracting zero returns the first
operand, as IEEE arithmetic does. -/
def float_sub (a b : ℚ) : ℚ := if b = 0 then a else float_round (a - b)

/-- The float constant `0.03f`, which is `16106127 / 2 ^ 29`. -/
def FLT_0_03 : ℚ := 16106127 / 536870912

/-- Modelled from the spec: `UPDATE_LAST_TIME(tv, last_tv)` of `commonLib.h` (not
among the sources), "reset `lastChangeTimestamp = now`": the value it stores in
its second argument. -/
def UPDATE_LAST_TIME (tv : timeval) : timeval := tv

/-- Modelled from the spec: `LIMIT_MIN_MAX_VALUE` of `commonLib.h` (not among the
sources); the spec calls it `clamp(x, min, max)`.  Its first argument is
evaluated once. -/
def LIMIT_MIN_MAX_VALUE (x min_limit max_limit : ℚ) : ℚ :=
  min (max x min_limit) max_limit

/-! ## PID records (`pid.h`, `pid.c`) -/

/-- Modelled from the spec: the PID record of `pid.h` (not among the sources),
fields as in the spec's data model of `PidController`. -/
structure PID_STRUCT where
  kp : ℚ
  ki : ℚ
  kd : ℚ
  setpoint : ℚ
  integrator : ℚ
  lastError : ℚ
  outputMin : ℚ
  outputMax : ℚ
deriving DecidableEq

/-- Modelled from the spec: `setPidSp` of `pid.c` (not among the sources);
"`setSetpoint(v)` mutates `setpoint` only". -/
def setPidSp (pid : PID_STRUCT) (v : ℚ) : PID_STRUCT :=
  { pid with setpoint := v }

/-- The eight global PID records declared in `pid.h`. -/
structure PidGlobals where
  rollAttitudePidSettings : PID_STRUCT
  pitchAttitudePidSettings : PID_STRUCT
  yawAttitudePidSettings : PID_STRUCT
  rollRatePidSettings : PID_STRUCT
  pitchRatePidSettings : PID_STRUCT
  yawRatePidSettings : PID_STRUCT
  altHoldAltSettings : PID_STRUCT
  altHoldlSpeedSettings : PID_STRUCT
deriving DecidableEq

/-! ## Collaborators -/

/-- The four rotors of `motorControl.h`. -/
inductive Rotor where
  | SOFT_PWM_CCW1
  | SOFT_PWM_CW1
  | SOFT_PWM_CCW2
  | SOFT_PWM_CW2
deriving DecidableEq

/-- What the collaborators of the control loop return during one call:
attitude estimator, throttle level, motor-driver accessors,
`getCurrentAltHoldSpeed` (declared in `altHold.h`, not defined in the sources)
and the PID law `pidCalculation` of `pid.c`, which returns the output and the
updated record. -/
structure Env where
  getRoll : ℚ
  getPitch : ℚ
  getYaw : ℚ
  getRollGyro : ℚ
  getPitchGyro : ℚ
  getYawGyro : ℚ
  getZGravity : ℚ
  getThrottlePowerLevel : ℚ
  getAdjustPowerLeveRange : ℚ
  getMaxPowerLeve : ℚ
  getMinPowerLevel : ℚ
  getPidOutputLimitation : ℚ
  getMotorGain : Rotor → ℚ
  getCurrentAltHoldSpeed : ℚ
  pidCalculation : PID_STRUCT → ℚ → ℚ × PID_STRUCT

/-- What the sampler thread reads during one pass of its loop.  The two time
tests are from `commonLib.h` (not among the sources) and are taken as they
are; `GET_USEC_TIMEDIFF` gives the value stored in `unsigned long interval`. -/
structure SamplerEnv where
  tv : timeval
  TIME_IS_UPDATED : timeval → Bool
  GET_USEC_TIMEDIFF : timeval → timeval → Nat
  result : Bool
  data : Nat
  getVerticalAcceleration : ℚ

/-! ## Program state -/

/-- The static variables of `altHold.c` and `flyControler.c` and the PID records. -/
structure State where
  aslRaw : ℚ
  targetAlt : ℚ
  altholdSpeed : ℚ
  altHoldIsReady : Bool
  enableAltHold : Bool
  altholdIsUpdate : Bool
  maxAlt : Nat
  lastThrottle : ℚ
  last_tv : timeval
  leaveFlyControler : Bool
  rollAttitudeOutput : ℚ
  pitchAttitudeOutput : ℚ
  yawAttitudeOutput : ℚ
  altHoltAltOutput : ℚ
  adjustPeriod : Nat
  angularLimit : ℚ
  gyroLimit : ℚ
  yawCenterPoint : ℚ
  maxThrottleOffset : ℚ
  altitudePidOutputLimitation : ℚ
  output : ℚ
  pid : PidGlobals
deriving DecidableEq

/-- The state at program start: every static variable has its C initialiser
(`maxAlt = 50`, `output = 0`, `lastThrottle = 0.f`, ...) or, without one, zero. -/
def programStart (pid : PidGlobals) : State where
  aslRaw := 0
  targetAlt := 0
  altholdSpeed := 0
  altHoldIsReady := false
  enableAltHold := false
  altholdIsUpdate := false
  maxAlt := 50
  lastThrottle := 0
  last_tv := ⟨0, 0⟩
  leaveFlyControler := false
  rollAttitudeOutput := 0
  pitchAttitudeOutput := 0
  yawAttitudeOutput := 0
  altHoltAltOutput := 0
  adjustPeriod := 0
  angularLimit := 0
  gyroLimit := 0
  yawCenterPoint := 0
  maxThrottleOffset := 0
  altitudePidOutputLimitation := 0
  output := 0
  pid := pid

/-! ## `altHold.c` -/

def getEnableAltHold (s : State) : Bool := s.enableAltHold

def setEnableAltHold (s : State) (v : Bool) : State := { s with enableAltHold := v }

def getAltHoldIsReady (s : State) : Bool := s.altHoldIsReady

def setAltHoldIsReady (s : State) (v : Bool) : State := { s with altHoldIsReady := v }

def setMaxAlt (s : State) (v : Nat) : State := { s with maxAlt := v }

def getMaxAlt (s : State) : Nat := s.maxAlt

def getCurrentAltHoldAltitude (s : State) : ℚ := s.aslRaw

/-- The sensor backend chosen at build time (`ALTHOLD_MODULE_...`), or none. -/
inductive AltHoldModule where
  | ALTHOLD_MODULE_MS5611
  | ALTHOLD_MODULE_SRF02
  | ALTHOLD_MODULE_VL53L0X
  | noModule
deriving DecidableEq

/-- What `initAltHold` gets from its environment: the backend compiled in, what
the backend's init function (`ms5611Init`, `srf02Init`, `vl53l0xInit`) returns,
and the return codes of `pthread_mutex_init` and `pthread_create` (0 is
success). -/
structure InitEnv where
  backend : AltHoldModule
  sensorInit : Bool
  pthread_mutex_init : Int
  pthread_create : Int

/-- The tail of `initAltHold` after the backend block: mutex, thread, ready. -/
def initAltHold_threads (io : InitEnv) (s : State) : Bool × State :=
  if io.pthread_mutex_init ≠ 0 then
    (false, s)
  else if io.pthread_create ≠ 0 then
    (false, s)
  else
    (true, setAltHoldIsReady s true)

/-- `initAltHold`. -/
def initAltHold (io : InitEnv) (s : State) : Bool × State :=
  let s0 := setAltHoldIsReady s false
  match io.backend with
  | AltHoldModule.ALTHOLD_MODULE_MS5611 =>
    if !io.sensorInit then (false, s0)
    else initAltHold_threads io (setMaxAlt s0 99999999)
  | AltHoldModule.ALTHOLD_MODULE_SRF02 =>
    if !io.sensorInit then (false, s0)
    else initAltHold_threads io (setMaxAlt s0 200)
  | AltHoldModule.ALTHOLD_MODULE_VL53L0X =>
    if !io.sensorInit then (false, s0)
    else initAltHold_threads io (setMaxAlt s0 140)
  | AltHoldModule.noModule => (false, s0)

/-- `updateAltHold`: test and clear `altholdIsUpdate` under the mutex. -/
def updateAltHold (s : State) : Bool × State :=
  if s.altholdIsUpdate then
    (true, { s with altholdIsUpdate := false })
  else
    (false, s)

def getTargetAlt (s : State) : ℚ := s.targetAlt

def getAltholdSpeed (s : State) : ℚ := s.altholdSpeed

/-- `updateTargetAltitude(throttle)`; `tv` is what `gettimeofday` returns.  The two
band limits `lastThrottle + 0.03f` and `lastThrottle - 0.03f` are float sums. -/
def updateTargetAltitude (tv : timeval) (throttle : ℚ) (s : State) : State :=
  if throttle ≠ 0 ∧ (throttle ≤ float_add s.lastThrottle FLT_0_03
      ∧ throttle ≥ float_sub s.lastThrottle FLT_0_03) then
    if GET_SEC_TIMEDIFF tv s.last_tv ≥ 3 then
      s
    else
      { s with targetAlt := getCurrentAltHoldAltitude s }
  else
    let s1 := { s with lastThrottle := throttle, last_tv := UPDATE_LAST_TIME tv }
    { s1 with targetAlt := getCurrentAltHoldAltitude s1 }

/-- One pass of the `while` loop of `altHoldUpdate`; `tv2` is the thread's local
time stamp, returned with the new state. -/
def altHoldUpdate_pass (io : SamplerEnv) (tv2 : timeval) (s : State) : timeval × State :=
  if io.TIME_IS_UPDATED tv2 then
    if io.result && decide (io.data ≤ getMaxAlt s) then
      let interval := io.GET_USEC_TIMEDIFF io.tv tv2
      let s1 := { s with altholdSpeed := io.getVerticalAcceleration }
      let s2 := { s1 with aslRaw := (io.data : ℚ) }
      if interval ≥ 100000 then
        (UPDATE_LAST_TIME io.tv, { s2 with altholdIsUpdate := true })
      else
        (tv2, s2)
    else
      (tv2, s)
  else
    (UPDATE_LAST_TIME io.tv, s)

/-! ## `flyControler.c` -/

def setLeaveFlyControlerFlag (s : State) (v : Bool) : State := { s with leaveFlyControler := v }

def getLeaveFlyControlerFlag (s : State) : Bool := s.leaveFlyControler

def setGyroLimit (s : State) (limitation : ℚ) : State := { s with gyroLimit := limitation }

def getGyroLimit (s : State) : ℚ := s.gyroLimit

def setAdjustPeriod (s : State) (period : Nat) : State := { s with adjustPeriod := period }

def getAdjustPeriod (s : State) : Nat := s.adjustPeriod

def setAngularLimit (s : State) (angular : ℚ) : State := { s with angularLimit := angular }

def getAngularLimit (s : State) : ℚ := s.angularLimit

def setAltitudePidOutputLimitation (s : State) (v : ℚ) : State :=
  { s with altitudePidOutputLimitation := v }

def getAltitudePidOutputLimitation (s : State) : ℚ := s.altitudePidOutputLimitation

/-- `flyControlerInit`.  `disenableFlySystem` (system control) and the four
`setMotorGain(rotor, 1)` calls (motor driver) write state of collaborators; the
gains are read back through `Env.getMotorGain`. -/
def flyControlerInit (s : State) : State :=
  let s1 := setLeaveFlyControlerFlag s false
  let s2 := setAdjustPeriod s1 1
  let s3 := setGyroLimit s2 50
  let s4 := setAngularLimit s3 5000
  let s5 := setAltitudePidOutputLimitation s4 15
  { s5 with
    rollAttitudeOutput := 0
    pitchAttitudeOutput := 0
    yawAttitudeOutput := 0
    altHoltAltOutput := 0
    maxThrottleOffset := 1000 }

/-- `setYawCenterPoint(point)`. -/
def setYawCenterPoint (s : State) (point : ℚ) : State :=
  let yawCenterPoint1 := point
  let yawCenterPoint1 :=
    if yawCenterPoint1 > 180 then yawCenterPoint1 - 360
    else if yawCenterPoint1 < -180 then yawCenterPoint1 + 360
    else yawCenterPoint1
  { s with yawCenterPoint := yawCenterPoint1 }

def getYawCenterPoint (s : State) : ℚ := s.yawCenterPoint

/-- `yawTransform(originPoint)`; `output` is the float difference. -/
def yawTransform (s : State) (originPoint : ℚ) : ℚ :=
  let output := float_sub originPoint s.yawCenterPoint
  if output > 180 then output - 360
  else if output < -180 then output + 360
  else output

/-- `getAttitudePidOutput`: the three attitude PIDs, each clamped to `±gyroLimit`. -/
def getAttitudePidOutput (env : Env) (s : State) : State :=
  let r := env.pidCalculation s.pid.rollAttitudePidSettings env.getRoll
  let s1 := { s with
    pid := { s.pid with rollAttitudePidSettings := r.2 }
    rollAttitudeOutput := LIMIT_MIN_MAX_VALUE r.1 (-getGyroLimit s) (getGyroLimit s) }
  let p := env.pidCalculation s1.pid.pitchAttitudePidSettings env.getPitch
  let s2 := { s1 with
    pid := { s1.pid with pitchAttitudePidSettings := p.2 }
    pitchAttitudeOutput := LIMIT_MIN_MAX_VALUE p.1 (-getGyroLimit s1) (getGyroLimit s1) }
  let y := env.pidCalculation s2.pid.yawAttitudePidSettings (yawTransform s2 env.getYaw)
  { s2 with
    pid := { s2.pid with yawAttitudePidSettings := y.2 }
    yawAttitudeOutput := LIMIT_MIN_MAX_VALUE y.1 (-getGyroLimit s2) (getGyroLimit s2) }

/-- `getSlopeThrottleOffset`. -/
def getSlopeThrottleOffset (env : Env) : ℚ :=
  if env.getZGravity ≤ 0 then 1 else 2 - env.getZGravity

/-- `getRatePidOutput`: returns `(rollRateOutput, pitchRateOutput, yawRateOutput)`. -/
def getRatePidOutput (env : Env) (s : State) : (ℚ × ℚ × ℚ) × State :=
  let pid1 := { s.pid with rollRatePidSettings := setPidSp s.pid.rollRatePidSettings s.rollAttitudeOutput }
  let pid2 := { pid1 with pitchRatePidSettings := setPidSp pid1.pitchRatePidSettings s.pitchAttitudeOutput }
  let pid3 := { pid2 with yawRatePidSettings := setPidSp pid2.yawRatePidSettings s.yawAttitudeOutput }
  let r := env.pidCalculation pid3.rollRatePidSettings env.getRollGyro
  let pid4 := { pid3 with rollRatePidSettings := r.2 }
  let p := env.pidCalculation pid4.pitchRatePidSettings env.getPitchGyro
  let pid5 := { pid4 with pitchRatePidSettings := p.2 }
  let y := env.pidCalculation pid5.yawRatePidSettings env.getYawGyro
  let pid6 := { pid5 with yawRatePidSettings := y.2 }
  ((r.1, p.1, y.1), { s with pid := pid6 })

/-- `getAltHoldAltPidOutput`. -/
def getAltHoldAltPidOutput (env : Env) (s : State) : State :=
  let r := env.pidCalculation s.pid.altHoldAltSettings (getCurrentAltHoldAltitude s)
  { s with
    pid := { s.pid with altHoldAltSettings := r.2 }
    altHoltAltOutput := LIMIT_MIN_MAX_VALUE r.1 (-getAltitudePidOutputLimitation s)
      (getAltitudePidOutputLimitation s) }

/-- `getAltHoldSpeedPidOutput(&altHoldSpeedOutput)`: returns what it stores through
the pointer. -/
def getAltHoldSpeedPidOutput (env : Env) (s : State) : ℚ × State :=
  let pid1 := { s.pid with altHoldlSpeedSettings := setPidSp s.pid.altHoldlSpeedSettings s.altHoltAltOutput }
  let r := env.pidCalculation pid1.altHoldlSpeedSettings env.getCurrentAltHoldSpeed
  (r.1, { s with pid := { pid1 with altHoldlSpeedSettings := r.2 } })

/-- `getThrottleOffsetByAltHold(updateAltHoldOffset)`; the function-level static
`output` is the field `State.output`. -/
def getThrottleOffsetByAltHold (env : Env) (updateAltHoldOffset : Bool) (s : State) : ℚ × State :=
  if updateAltHoldOffset then
    let s1 := getAltHoldAltPidOutput env s
    let r := getAltHoldSpeedPidOutput env s1
    let s2 := { r.2 with output := r.1 }
    let s3 := { s2 with output := LIMIT_MIN_MAX_VALUE s2.output (-s2.maxThrottleOffset) s2.maxThrottleOffset }
    (s3.output, s3)
  else
    (s.output, s)

/-- The C conversion `(unsigned short) x` of a float: the fraction is dropped
(towards zero); when the result is outside `0 .. 65535` the conversion is
undefined in C and there is no value. -/
def toUnsignedShort (x : ℚ) : Option Nat :=
  if 0 ≤ Int.tdiv x.num (x.den : Int) ∧ Int.tdiv x.num (x.den : Int) < 65536 then
    some (Int.tdiv x.num (x.den : Int)).toNat
  else
    none

/-- The local variables of `motorControler` at its end and the four power levels
it passes to `setupCcw1MotorPoewrLevel`, ..., `setupCw2MotorPoewrLevel`. -/
structure MotorControlerLocals where
  altThrottleOffset : ℚ
  slopThrottleOffset : ℚ
  centerThrottle : ℚ
  maxLimit : ℚ
  minLimit : ℚ
  rollRateOutput : ℚ
  pitchRateOutput : ℚ
  yawRateOutput : ℚ
  outCcw1 : ℚ
  outCcw2 : ℚ
  outCw1 : ℚ
  outCw2 : ℚ
  powerCcw1 : Option Nat
  powerCcw2 : Option Nat
  powerCw1 : Option Nat
  powerCw2 : Option Nat
deriving DecidableEq

/-- `motorControler`: one cycle of the mixer.  `min` and `max` of `commonLib.h`
are the minimum and maximum of two numbers. -/
def motorControler (env : Env) (s : State) : MotorControlerLocals × State :=
  let a :=
    if getAltHoldIsReady s && getEnableAltHold s then
      let u := updateAltHold s
      getThrottleOffsetByAltHold env u.1 u.2
    else
      (0, s)
  let altThrottleOffset := a.1
  let slopThrottleOffset := getSlopeThrottleOffset env
  let centerThrottle := (env.getThrottlePowerLevel + altThrottleOffset) * slopThrottleOffset
  let maxLimit := min (centerThrottle + env.getAdjustPowerLeveRange) env.getMaxPowerLeve
  let minLimit := max (centerThrottle - env.getAdjustPowerLeveRange) env.getMinPowerLevel
  let s1 := getAttitudePidOutput env a.2
  let rate := getRatePidOutput env s1
  let rollRateOutput := rate.1.1
  let pitchRateOutput := rate.1.2.1
  let yawRateOutput := rate.1.2.2
  let rollCcw1 := rollRateOutput
  let rollCcw2 := -rollRateOutput
  let rollCw1 := -rollRateOutput
  let rollCw2 := rollRateOutput
  let pitchCcw1 := -pitchRateOutput
  let pitchCcw2 := pitchRateOutput
  let pitchCw1 := -pitchRateOutput
  let pitchCw2 := pitchRateOutput
  let yawCcw1 := yawRateOutput
  let yawCcw2 := yawRateOutput
  let yawCw1 := -yawRateOutput
  let yawCw2 := -yawRateOutput
  let outCcw1 := centerThrottle + LIMIT_MIN_MAX_VALUE (rollCcw1 + pitchCcw1 + yawCcw1)
    (-env.getPidOutputLimitation) env.getPidOutputLimitation
  let outCcw2 := centerThrottle + LIMIT_MIN_MAX_VALUE (rollCcw2 + pitchCcw2 + yawCcw2)
    (-env.getPidOutputLimitation) env.getPidOutputLimitation
  let outCw1 := centerThrottle + LIMIT_MIN_MAX_VALUE (rollCw1 + pitchCw1 + yawCw1)
    (-env.getPidOutputLimitation) env.getPidOutputLimitation
  let outCw2 := centerThrottle + LIMIT_MIN_MAX_VALUE (rollCw2 + pitchCw2 + yawCw2)
    (-env.getPidOutputLimitation) env.getPidOutputLimitation
  let outCcw1 := env.getMotorGain Rotor.SOFT_PWM_CCW1 * LIMIT_MIN_MAX_VALUE outCcw1 minLimit maxLimit
  let outCcw2 := env.getMotorGain Rotor.SOFT_PWM_CCW2 * LIMIT_MIN_MAX_VALUE outCcw2 minLimit maxLimit
  let outCw1 := env.getMotorGain Rotor.SOFT_PWM_CW1 * LIMIT_MIN_MAX_VALUE outCw1 minLimit maxLimit
  let outCw2 := env.getMotorGain Rotor.SOFT_PWM_CW2 * LIMIT_MIN_MAX_VALUE outCw2 minLimit maxLimit
  ({ altThrottleOffset := altThrottleOffset
     slopThrottleOffset := slopThrottleOffset
     centerThrottle := centerThrottle
     maxLimit := maxLimit
     minLimit := minLimit
     rollRateOutput := rollRateOutput
     pitchRateOutput := pitchRateOutput
     yawRateOutput := yawRateOutput
     outCcw1 := outCcw1
     outCcw2 := outCcw2
     outCw1 := outCw1
     outCw2 := outCw2
     powerCcw1 := toUnsignedShort outCcw1
     powerCcw2 := toUnsignedShort outCcw2
     powerCw1 := toUnsignedShort outCw1
     powerCw2 := toUnsignedShort outCw2 },
   rate.2)

/-! ## Call sequences -/

/-- The results of `n` consecutive calls of `updateAltHold`, and the state after
the last. -/
def updateAltHold_calls : Nat → State → List Bool × State
  | 0, s => ([], s)
  | n + 1, s =>
    let r := updateAltHold s
    let rest := updateAltHold_calls n r.2
    (r.1 :: rest.1, rest.2)

/-- One call of `updateTargetAltitude` as the control loop makes it: the clock
reading, the throttle passed, and the altitude `aslRaw` the sampler has
published when the call is made. -/
structure TargetCall where
  tv : timeval
  throttle : ℚ
  altitude : ℚ

/-- The call `c` made in state `s`. -/
def targetCall (s : State) (c : TargetCall) : State :=
  updateTargetAltitude c.tv c.throttle { s with aslRaw := c.altitude }

/-- A sequence of calls of `updateTargetAltitude`, first to last. -/
def targetCalls (s : State) (cs : List TargetCall) : State :=
  cs.foldl targetCall s

/-- The values returned by consecutive calls `getThrottleOffsetByAltHold(false)`,
one per element of `envs`, and the state after the last. -/
def holdCalls : List Env → State → List ℚ × State
  | [], s => ([], s)
  | env :: envs, s =>
    let r := getThrottleOffsetByAltHold env false s
    let rest := holdCalls envs r.2
    (r.1 :: rest.1, rest.2)

/-- The values returned by consecutive calls of `getThrottleOffsetByAltHold`, each
with its own argument and its own collaborator readings (and PID law), and the
state after the last. -/
def offsetCalls : List (Env × Bool) → State → List ℚ × State
  | [], s => ([], s)
  | c :: cs, s =>
    let r := getThrottleOffsetByAltHold c.1 c.2 s
    let rest := offsetCalls cs r.2
    (r.1 :: rest.1, rest.2)

/-- A call of the public API that can follow initialisation. -/
inductive ApiCall where
  | setEnableAltHold (v : Bool)
  | updateAltHold
  | updateTargetAltitude (tv : timeval) (throttle : ℚ)
  | motorControler (env : Env)
  | initAltHold (io : InitEnv)

/-- The state after one call of the public API. -/
def ApiCall.run (c : ApiCall) (s : State) : State :=
  match c with
  | ApiCall.setEnableAltHold v => RaspberryPilot.setEnableAltHold s v
  | ApiCall.updateAltHold => (RaspberryPilot.updateAltHold s).2
  | ApiCall.updateTargetAltitude tv throttle => RaspberryPilot.updateTargetAltitude tv throttle s
  | ApiCall.motorControler env => (RaspberryPilot.motorControler env s).2
  | ApiCall.initAltHold io => (RaspberryPilot.initAltHold io s).2

/-- Whether the call is an `initAltHold` that returns false in state `s`. -/
def ApiCall.isFailedInit (c : ApiCall) (s : State) : Bool :=
  match c with
  | ApiCall.initAltHold io => !(RaspberryPilot.initAltHold io s).1
  | _ => false

/-- The state after a sequence of calls of the public API, first to last. -/
def runCalls (s : State) (cs : List ApiCall) : State :=
  cs.foldl (fun t c => c.run t) s

/-- Whether no call of the sequence, made in the state it meets, is an
`initAltHold` that returns false. -/
def noFailedInit : List ApiCall → State → Bool
  | [], _ => true
  | c :: cs, s => !c.isFailedInit s && noFailedInit cs (c.run s)

/-- Consecutive cycles of `motorControler`, one per element of `envs`. -/
def motorCycles (s : State) (envs : List Env) : State :=
  envs.foldl (fun t env => (motorControler env t).2) s

/-- The value `motorControler` computes for a rotor before integer truncation. -/
def MotorControlerLocals.out (m : MotorControlerLocals) : Rotor → ℚ
  | Rotor.SOFT_PWM_CCW1 => m.outCcw1
  | Rotor.SOFT_PWM_CCW2 => m.outCcw2
  | Rotor.SOFT_PWM_CW1 => m.outCw1
  | Rotor.SOFT_PWM_CW2 => m.outCw2

/-- The mixing matrix as the spec's table gives it: the roll, pitch and yaw
coefficients of each rotor. -/
def spec_mixingCoeff : Rotor → ℚ × ℚ × ℚ
  | Rotor.SOFT_PWM_CCW1 => (1, -1, 1)
  | Rotor.SOFT_PWM_CCW2 => (-1, 1, 1)
  | Rotor.SOFT_PWM_CW1 => (-1, -1, -1)
  | Rotor.SOFT_PWM_CW2 => (1, 1, -1)

/-! ## Sample inputs for concrete evaluations -/

/-- A sample PID record: gain 1, setpoint 0, output limits `±100`. -/
def samplePid : PID_STRUCT :=
  { kp := 1, ki := 0, kd := 0, setpoint := 0, integrator := 0, lastError := 0,
    outputMin := -100, outputMax := 100 }

/-- Eight copies of `samplePid`. -/
def samplePids : PidGlobals :=
  { rollAttitudePidSettings := samplePid, pitchAttitudePidSettings := samplePid,
    yawAttitudePidSettings := samplePid, rollRatePidSettings := samplePid,
    pitchRatePidSettings := samplePid, yawRatePidSettings := samplePid,
    altHoldAltSettings := samplePid, altHoldlSpeedSettings := samplePid }

/-- A sample PID law (proportional, output limited), used only at concrete inputs. -/
def samplePidCalculation (pid : PID_STRUCT) (measurement : ℚ) : ℚ × PID_STRUCT :=
  (LIMIT_MIN_MAX_VALUE (pid.kp * (pid.setpoint - measurement)) pid.outputMin pid.outputMax,
   { pid with lastError := pid.setpoint - measurement })

/-- Sample collaborator readings: level attitude, throttle 1500. -/
def sampleEnv : Env :=
  { getRoll := 0, getPitch := 0, getYaw := 0, getRollGyro := 0, getPitchGyro := 0,
    getYawGyro := 0, getZGravity := 1, getThrottlePowerLevel := 1500,
    getAdjustPowerLeveRange := 500, getMaxPowerLeve := 3280, getMinPowerLevel := 1630,
    getPidOutputLimitation := 300, getMotorGain := fun _ => 1,
    getCurrentAltHoldSpeed := 2, pidCalculation := samplePidCalculation }

/-- A sampler pass that accepts the reading 40 cm, 120 ms after the last flag set. -/
def sampleSamplerEnv : SamplerEnv :=
  { tv := ⟨10, 120000⟩, TIME_IS_UPDATED := fun _ => true,
    GET_USEC_TIMEDIFF := fun _ _ => 120000, result := true, data := 40,
    getVerticalAcceleration := 0 }

/-- A state in which the reference throttle 1500 was recorded at time 100 s
(by a first call with that throttle at altitude 20 cm). -/
def sampleHoldState : State :=
  targetCall (programStart samplePids) { tv := ⟨100, 0⟩, throttle := 1500, altitude := 20 }

/-- Three calls with the throttle held within the band around 1500 (1500,
1500.015625, 1499.984375): at 101 s, 103 s and 104.5 s, at altitudes 25, 31 and
38 cm. -/
def sampleHoldCalls : List TargetCall :=
  [{ tv := ⟨101, 0⟩, throttle := 1500, altitude := 25 },
   { tv := ⟨103, 0⟩, throttle := 1500 + 1 / 64, altitude := 31 },
   { tv := ⟨104, 500000⟩, throttle := 1500 - 1 / 64, altitude := 38 }]

/-- A state in which the reference throttle `0.031f` (`8321499 / 2 ^ 28`) was
recorded at time 100 s, at altitude 20 cm. -/
def sampleEdgeState : State :=
  targetCall (programStart samplePids)
    { tv := ⟨100, 0⟩, throttle := 8321499 / 268435456, altitude := 20 }

/-- A call 4 s later with throttle `0.001f` (`8589935 / 2 ^ 33`) at altitude 30 cm. -/
def sampleEdgeCall : TargetCall :=
  { tv := ⟨104, 0⟩, throttle := 8589935 / 8589934592, altitude := 30 }

/-- A call at 101 s with throttle 1500.015625 at altitude 25 cm. -/
def sampleStableCall : TargetCall :=
  { tv := ⟨101, 0⟩, throttle := 1500 + 1 / 64, altitude := 25 }

/-- A call at 104 s with throttle 1500.030029296875, the float `1500 + 0.03f`, at
altitude 30 cm. -/
def sampleBandTopCall : TargetCall :=
  { tv := ⟨104, 0⟩, throttle := 1500 + 123 / 4096, altitude := 30 }

/-- A state whose yaw centre is the float `-1e-6f` (`-8796093 / 2 ^ 43`). -/
def sampleTinyCentreState : State :=
  setYawCenterPoint (programStart samplePids) (-8796093 / 8796093022208)

/-- Three calls whose throttle jumps by more than 0.03 each time (from the
initial `lastThrottle = 0`): 1500, 1510, 0. -/
def sampleJumpCalls : List TargetCall :=
  [{ tv := ⟨100, 0⟩, throttle := 1500, altitude := 20 },
   { tv := ⟨100, 10000⟩, throttle := 1510, altitude := 21 },
   { tv := ⟨105, 0⟩, throttle := 0, altitude := 23 }]

/-- A state in which altitude hold is ready but not enabled, the update flag is
set and 77 is the cached throttle offset. -/
def sampleDisabledState : State :=
  { programStart samplePids with
    altHoldIsReady := true, enableAltHold := false, altholdIsUpdate := true, output := 77 }

/-- The state after `flyControlerInit` at program start. -/
def sampleInitState : State := flyControlerInit (programStart samplePids)

/-- Collaborator readings with a tilted, rotating airframe: the rate PIDs return
non-zero values. -/
def sampleTiltEnv : Env :=
  { sampleEnv with getRoll := 3, getPitch := -2, getYaw := 10, getRollGyro := 1,
                   getPitchGyro := 4, getYawGyro := -6, getThrottlePowerLevel := 1800 }

/-- Readings as `sampleEnv`, with throttle 1800 and a negative PID output
limitation. -/
def sampleNegLimitEnv : Env :=
  { sampleEnv with getThrottlePowerLevel := 1800, getPidOutputLimitation := -100 }

/-- An `initAltHold` in which everything succeeds (backend VL53L0X). -/
def sampleInitOk : InitEnv :=
  { backend := AltHoldModule.ALTHOLD_MODULE_VL53L0X, sensorInit := true,
    pthread_mutex_init := 0, pthread_create := 0 }

/-- An `initAltHold` in which the sensor does not respond. -/
def sampleInitSensorFails : InitEnv := { sampleInitOk with sensorInit := false }

/-- After `flyControlerInit`: the pilot's first call records throttle 1500 at
altitude 40 cm (so `targetAlt = 40`), then the sampler publishes 30 cm.  The
setpoint of the altitude PID is still the 0 of `samplePid`. -/
def sampleTargetState : State :=
  { targetCall sampleInitState { tv := ⟨100, 0⟩, throttle := 1500, altitude := 40 } with
    aslRaw := 30 }

/-- A sampler pass whose sensor read fails. -/
def sampleFailedRead : SamplerEnv := { sampleSamplerEnv with result := false }

/-- A sampler pass whose sensor read returns 60 cm, above the initial `maxAlt = 50`. -/
def sampleHighRead : SamplerEnv := { sampleSamplerEnv with data := 60 }

/-! ## Theorems -/

/-! ### Float rounding at the inputs used below -/

/-- An integer within half a unit of `x` is what `x` rounds to. -/
theorem roundHalfEven_eq (x : ℚ) (m : Int) (h : |x - m| < 1 / 2) : roundHalfEven x = m := by
  have h1 := (abs_lt.mp h).1
  have h2 := (abs_lt.mp h).2
  unfold roundHalfEven
  by_cases hx : (m : ℚ) ≤ x
  · have hf : ⌊x⌋ = m := Int.floor_eq_iff.mpr ⟨hx, by linarith⟩
    simp only [hf]
    rw [if_pos (by linarith)]
  · have hf : ⌊x⌋ = m - 1 :=
      Int.floor_eq_iff.mpr ⟨by push_cast; linarith, by push_cast; linarith⟩
    simp only [hf]
    have h3 : ¬ (x - ((m - 1 : Int) : ℚ) < 1 / 2) := by push_cast; linarith
    have h4 : 1 / 2 < x - ((m - 1 : Int) : ℚ) := by push_cast; linarith
    rw [if_neg h3, if_pos h4]
    ring

/-- The spacing exponent of a value in the binade `[2 ^ e, 2 ^ (e + 1))`. -/
theorem float_quantum_eq (x : ℚ) (e : Int) (h1 : (2 : ℚ) ^ e ≤ |x|)
    (h2 : |x| < (2 : ℚ) ^ (e + 1)) :
    float_quantum x = max e (-126) - 23 := by
  have hpos : 0 < |x| := lt_of_lt_of_le (by positivity) h1
  have a : e ≤ Int.log 2 |x| :=
    (Int.zpow_le_iff_le_log (by norm_num) hpos).mp (by exact_mod_cast h1)
  have b : Int.log 2 |x| < e + 1 :=
    (Int.lt_zpow_iff_log_lt (by norm_num) hpos).mp (by exact_mod_cast h2)
  have c : Int.log 2 |x| = e := by omega
  unfold float_quantum
  rw [c]

/-- Evaluation of `float_round`: binade `e`, spacing `2 ^ k`, nearest multiple `m`. -/
theorem float_round_eq (x : ℚ) (e k m : Int) (h1 : (2 : ℚ) ^ e ≤ |x|)
    (h2 : |x| < (2 : ℚ) ^ (e + 1))
    (hk : k = max e (-126) - 23) (hm : |x / 2 ^ k - m| < 1 / 2) :
    float_round x = (m : ℚ) * 2 ^ k := by
  have hx : x ≠ 0 := by
    intro h0
    rw [h0, abs_zero] at h1
    exact absurd h1 (not_le.mpr (by positivity))
  unfold float_round
  rw [if_neg hx, float_quantum_eq x e h1 h2, ← hk, roundHalfEven_eq _ m hm]

theorem float_add_zero_FLT : float_add 0 FLT_0_03 = FLT_0_03 := by
  unfold float_add FLT_0_03
  rw [float_round_eq _ (-6) (-29) 16106127 (by norm_num [abs_of_pos]) (by norm_num [abs_of_pos])
    (by norm_num) (by norm_num)]
  norm_num

theorem float_sub_zero_FLT : float_sub 0 FLT_0_03 = -FLT_0_03 := by
  unfold float_sub FLT_0_03
  rw [if_neg (by norm_num),
    float_round_eq _ (-6) (-29) (-16106127) (by norm_num [abs_of_pos])
      (by norm_num [abs_of_pos]) (by norm_num) (by norm_num)]
  norm_num

theorem float_add_1500_FLT : float_add 1500 FLT_0_03 = 1500 + 123 / 4096 := by
  unfold float_add FLT_0_03
  rw [float_round_eq _ 10 (-13) 12288246 (by norm_num [abs_of_pos]) (by norm_num [abs_of_pos])
    (by norm_num) (by norm_num [abs_lt])]
  norm_num

theorem float_sub_1500_FLT : float_sub 1500 FLT_0_03 = 1500 - 123 / 4096 := by
  unfold float_sub FLT_0_03
  rw [if_neg (by norm_num),
    float_round_eq _ 10 (-13) 12287754 (by norm_num [abs_of_pos]) (by norm_num [abs_of_pos])
      (by norm_num) (by norm_num [abs_lt])]
  norm_num

theorem float_sub_edge_FLT :
    float_sub (8321499 / 268435456) FLT_0_03 = 536871 / 536870912 := by
  unfold float_sub FLT_0_03
  rw [if_neg (by norm_num),
    float_round_eq _ (-10) (-33) 8589936 (by norm_num [abs_of_pos]) (by norm_num [abs_of_pos])
      (by norm_num) (by norm_num [abs_lt])]
  norm_num

theorem float_sub_170 : float_sub 170 (-170) = 340 := by
  unfold float_sub
  rw [if_neg (by norm_num),
    float_round_eq _ 8 (-15) 11141120 (by norm_num [abs_of_pos]) (by norm_num [abs_of_pos])
      (by norm_num) (by norm_num [abs_lt])]
  norm_num

theorem float_sub_175 : float_sub (-175) 10 = -185 := by
  unfold float_sub
  rw [if_neg (by norm_num),
    float_round_eq _ 7 (-16) (-12124160) (by norm_num [abs_of_pos]) (by norm_num [abs_of_pos])
      (by norm_num) (by norm_num [abs_lt])]
  norm_num

theorem float_sub_tiny : float_sub 180 (-8796093 / 8796093022208) = 180 := by
  unfold float_sub
  rw [if_neg (by norm_num),
    float_round_eq _ 7 (-16) 11796480 (by norm_num [abs_of_pos]) (by norm_num [abs_of_pos])
      (by norm_num) (by norm_num [abs_lt])]
  norm_num

/-! ### Yaw -/

/-- The value stored by `setYawCenterPoint`, case by case. -/
theorem getYawCenterPoint_setYawCenterPoint (s : State) (x : ℚ) :
    getYawCenterPoint (setYawCenterPoint s x)
      = if x > 180 then x - 360 else if x < -180 then x + 360 else x := rfl

/-- C1, as stated, fails: with the centre `-1e-6f` (as stored by
`setYawCenterPoint`) and yaw 180 the difference `y − c` exceeds 180, for which the
claim gives `y − c − 360`, about −180; the float difference computed by the code
is 180, the test `output > 180.0` fails and `yawTransform` returns 180. -/
theorem yawTransform_exact_counterexample :
    getYawCenterPoint sampleTinyCentreState = -8796093 / 8796093022208
    ∧ 180 - getYawCenterPoint sampleTinyCentreState > 180
    ∧ yawTransform sampleTinyCentreState 180 = 180
    ∧ yawTransform sampleTinyCentreState 180
        ≠ 180 - getYawCenterPoint sampleTinyCentreState - 360 := by
  have hc : getYawCenterPoint sampleTinyCentreState = -8796093 / 8796093022208 := by
    simp only [sampleTinyCentreState, getYawCenterPoint_setYawCenterPoint]
    norm_num
  have hy : yawTransform sampleTinyCentreState 180 = 180 := by
    have hc2 : sampleTinyCentreState.yawCenterPoint = -8796093 / 8796093022208 := hc
    simp only [yawTransform, hc2, float_sub_tiny]
    norm_num
  rw [hy, hc]
  norm_num

/-- C1, amended: for every yaw value `y` and every stored `yawCenterPoint` `c`,
with `d` the float difference `y − c` as the code computes it, `yawTransform(y)`
is the one-step normalisation of `d`, the same that `setYawCenterPoint` applies
to its argument: it is `d` when `−180 ≤ d ≤ 180`, `d − 360` when `d > 180` and
`d + 360` when `d < −180`.  With the centre stored by `setYawCenterPoint(−170)`,
`yawTransform(170) = −20`. -/
theorem yawTransform_normalizes (s : State) (y : ℚ) :
    yawTransform s y
      = getYawCenterPoint (setYawCenterPoint s (float_sub y (getYawCenterPoint s)))
    ∧ (-180 ≤ float_sub y (getYawCenterPoint s) ∧ float_sub y (getYawCenterPoint s) ≤ 180 →
        yawTransform s y = float_sub y (getYawCenterPoint s))
    ∧ (float_sub y (getYawCenterPoint s) > 180 →
        yawTransform s y = float_sub y (getYawCenterPoint s) - 360)
    ∧ (float_sub y (getYawCenterPoint s) < -180 →
        yawTransform s y = float_sub y (getYawCenterPoint s) + 360)
    ∧ getYawCenterPoint (setYawCenterPoint s (-170)) = -170
    ∧ yawTransform (setYawCenterPoint s (-170)) 170 = -20 := by
  refine ⟨rfl, ?_, ?_, ?_, ?_, ?_⟩
  · rintro ⟨h1, h2⟩
    simp only [yawTransform, getYawCenterPoint] at *
    rw [if_neg (not_lt.mpr h2), if_neg (not_lt.mpr h1)]
  · intro h
    simp only [yawTransform, getYawCenterPoint] at *
    rw [if_pos h]
  · intro h
    simp only [yawTransform, getYawCenterPoint] at *
    have h2 : ¬ (float_sub y s.yawCenterPoint > 180) := by linarith
    rw [if_neg h2, if_pos h]
  · simp only [setYawCenterPoint, getYawCenterPoint]
    norm_num
  · have hc : (setYawCenterPoint s (-170)).yawCenterPoint = -170 := by
      simp only [setYawCenterPoint]
      norm_num
    simp only [yawTransform, hc, float_sub_170]
    norm_num

/-- Concrete instance of `yawTransform_normalizes`: centre 10, yaw −175; the
float difference is −185 and the result 175. -/
theorem yawTransform_normalizes_witness :
    yawTransform (setYawCenterPoint (programStart samplePids) 10) (-175) = 175 := by
  have h := (yawTransform_normalizes (setYawCenterPoint (programStart samplePids) 10) (-175)).2.2.2.1
  have e : getYawCenterPoint (setYawCenterPoint (programStart samplePids) 10) = 10 := by
    simp only [setYawCenterPoint, getYawCenterPoint]
    norm_num
  rw [e, float_sub_175] at h
  have h2 := h (by norm_num)
  rw [h2]
  norm_num

/-- C2, as stated, fails: `setYawCenterPoint(−180)` stores −180, which is not
greater than −180, and `setYawCenterPoint(900)` stores 540, which exceeds 180. -/
theorem setYawCenterPoint_range_counterexample :
    getYawCenterPoint (setYawCenterPoint (programStart samplePids) (-180)) = -180
    ∧ ¬ (-180 < getYawCenterPoint (setYawCenterPoint (programStart samplePids) (-180)))
    ∧ getYawCenterPoint (setYawCenterPoint (programStart samplePids) 900) = 540
    ∧ ¬ (getYawCenterPoint (setYawCenterPoint (programStart samplePids) 900) ≤ 180) := by
  simp only [getYawCenterPoint_setYawCenterPoint]
  norm_num

/-- C2, amended: the value stored by `setYawCenterPoint(x)` (which is
`yawTransform(x)` with centre 0) lies in `(−180, 180]` exactly when
`−540 < x ≤ 540` and `x ≠ −180`; for every `x` with `−540 ≤ x ≤ 540` it lies in
the closed interval `[−180, 180]`. -/
theorem setYawCenterPoint_range (s : State) (x : ℚ) :
    yawTransform (setYawCenterPoint s 0) x = getYawCenterPoint (setYawCenterPoint s x)
    ∧ ((-180 < getYawCenterPoint (setYawCenterPoint s x)
          ∧ getYawCenterPoint (setYawCenterPoint s x) ≤ 180)
        ↔ (-540 < x ∧ x ≤ 540 ∧ x ≠ -180))
    ∧ (-540 ≤ x ∧ x ≤ 540 →
        -180 ≤ getYawCenterPoint (setYawCenterPoint s x)
          ∧ getYawCenterPoint (setYawCenterPoint s x) ≤ 180) := by
  refine ⟨?_, ?_, ?_⟩
  · simp only [yawTransform, setYawCenterPoint, getYawCenterPoint, float_sub]
    norm_num
  · rw [getYawCenterPoint_setYawCenterPoint]
    constructor
    · intro h
      split_ifs at h with h1 h2
      · exact ⟨by linarith, by linarith, by intro e; linarith⟩
      · exact ⟨by linarith, by linarith, by intro e; linarith⟩
      · exact ⟨by linarith, by linarith, by intro e; rw [e] at h; exact lt_irrefl _ h.1⟩
    · rintro ⟨h1, h2, h3⟩
      split_ifs with h4 h5
      · exact ⟨by linarith, by linarith⟩
      · exact ⟨by linarith, by linarith⟩
      · exact ⟨lt_of_le_of_ne (not_lt.mp h5) (Ne.symm h3), not_lt.mp h4⟩
  · rintro ⟨h1, h2⟩
    rw [getYawCenterPoint_setYawCenterPoint]
    split_ifs with h4 h5
    · exact ⟨by linarith, by linarith⟩
    · exact ⟨by linarith, by linarith⟩
    · exact ⟨not_lt.mp h5, not_lt.mp h4⟩

/-- Concrete instance of `setYawCenterPoint_range`: 350 is stored as a value of
`[−180, 180]` (it is −10). -/
theorem setYawCenterPoint_range_witness :
    -180 ≤ getYawCenterPoint (setYawCenterPoint (programStart samplePids) 350)
    ∧ getYawCenterPoint (setYawCenterPoint (programStart samplePids) 350) ≤ 180 :=
  (setYawCenterPoint_range (programStart samplePids) 350).2.2 (by norm_num)

/-- C3, as stated, fails: `setYawCenterPoint(900)` stores 540, and
`setYawCenterPoint(getYawCenterPoint())` then changes the centre to 180. -/
theorem setYawCenterPoint_idempotent_counterexample :
    getYawCenterPoint (setYawCenterPoint (programStart samplePids) 900) = 540
    ∧ getYawCenterPoint
        (setYawCenterPoint (setYawCenterPoint (programStart samplePids) 900)
          (getYawCenterPoint (setYawCenterPoint (programStart samplePids) 900))) = 180 := by
  simp only [getYawCenterPoint_setYawCenterPoint]
  norm_num

/-- C3, amended: for every `x` with `−540 ≤ x ≤ 540`, `setYawCenterPoint(x)`
followed by `setYawCenterPoint(getYawCenterPoint())` leaves `yawCenterPoint` (and
the whole state) unchanged. -/
theorem setYawCenterPoint_idempotent (s : State) (x : ℚ) (h : -540 ≤ x ∧ x ≤ 540) :
    getYawCenterPoint
        (setYawCenterPoint (setYawCenterPoint s x) (getYawCenterPoint (setYawCenterPoint s x)))
      = getYawCenterPoint (setYawCenterPoint s x)
    ∧ setYawCenterPoint (setYawCenterPoint s x) (getYawCenterPoint (setYawCenterPoint s x))
        = setYawCenterPoint s x := by
  have key : getYawCenterPoint
        (setYawCenterPoint (setYawCenterPoint s x) (getYawCenterPoint (setYawCenterPoint s x)))
      = getYawCenterPoint (setYawCenterPoint s x) := by
    simp only [getYawCenterPoint_setYawCenterPoint]
    split_ifs <;> linarith [h.1, h.2]
  refine ⟨key, ?_⟩
  have e := key
  simp only [getYawCenterPoint] at e
  simp only [setYawCenterPoint, getYawCenterPoint] at *
  rw [e]

/-- Concrete instance of `setYawCenterPoint_idempotent`: after
`setYawCenterPoint(350)` a second normalisation changes nothing. -/
theorem setYawCenterPoint_idempotent_witness :
    setYawCenterPoint (setYawCenterPoint (programStart samplePids) 350)
        (getYawCenterPoint (setYawCenterPoint (programStart samplePids) 350))
      = setYawCenterPoint (programStart samplePids) 350 :=
  (setYawCenterPoint_idempotent (programStart samplePids) 350 (by norm_num)).2

/-- C4: for every z-axis gravity value `z` returned by `getZGravity`,
`getSlopeThrottleOffset` returns 1 when `z ≤ 0` and `2 − z` when `z > 0`. -/
theorem getSlopeThrottleOffset_cases (env : Env) (z : ℚ) (hz : env.getZGravity = z) :
    (z ≤ 0 → getSlopeThrottleOffset env = 1)
    ∧ (z > 0 → getSlopeThrottleOffset env = 2 - z) := by
  subst hz
  constructor
  · intro h
    simp only [getSlopeThrottleOffset, if_pos h]
  · intro h
    simp only [getSlopeThrottleOffset, if_neg (not_le.mpr h)]

/-- Concrete instance of `getSlopeThrottleOffset_cases`: `z = 1/2` gives `3/2`. -/
theorem getSlopeThrottleOffset_cases_witness :
    getSlopeThrottleOffset { sampleEnv with getZGravity := 1 / 2 } = 3 / 2 := by
  have h := (getSlopeThrottleOffset_cases { sampleEnv with getZGravity := 1 / 2 } (1 / 2) rfl).2
    (by norm_num)
  rw [h]
  norm_num

/-- C5, as stated, fails: at `zGravity = 0` the test `getZGravity() <= 0.0`
holds and `getSlopeThrottleOffset` returns 1, not 2. -/
theorem getSlopeThrottleOffset_zero_counterexample :
    getSlopeThrottleOffset { sampleEnv with getZGravity := 0 } = 1
    ∧ getSlopeThrottleOffset { sampleEnv with getZGravity := 0 } ≠ 2 := by
  simp only [getSlopeThrottleOffset]
  norm_num

/-- C5, amended: `getSlopeThrottleOffset` returns 1 when `zGravity = 1`, 1 when
`zGravity = 0` and 1 when `zGravity = −1/2`, whatever the other readings are. -/
theorem getSlopeThrottleOffset_examples (env : Env) :
    getSlopeThrottleOffset { env with getZGravity := 1 } = 1
    ∧ getSlopeThrottleOffset { env with getZGravity := 0 } = 1
    ∧ getSlopeThrottleOffset { env with getZGravity := -1 / 2 } = 1 := by
  simp only [getSlopeThrottleOffset]
  norm_num

/-- A sampler pass that takes the flag-setting branch of `altHoldUpdate` leaves
`altholdIsUpdate` true. -/
theorem altHoldUpdate_pass_sets_flag (io : SamplerEnv) (tv2 : timeval) (s : State)
    (h1 : io.TIME_IS_UPDATED tv2 = true) (h2 : io.result = true)
    (h3 : io.data ≤ getMaxAlt s) (h4 : io.GET_USEC_TIMEDIFF io.tv tv2 ≥ 100000) :
    (altHoldUpdate_pass io tv2 s).2.altholdIsUpdate = true := by
  simp [altHoldUpdate_pass, h1, h2, h3, h4]

/-- A call of `updateAltHold` with the flag clear returns false and changes nothing. -/
theorem updateAltHold_of_clear (t : State) (h : t.altholdIsUpdate = false) :
    updateAltHold t = (false, t) := by
  simp [updateAltHold, h]

/-- Consecutive calls of `updateAltHold` with the flag clear all return false. -/
theorem updateAltHold_calls_of_clear (n : Nat) (t : State) (h : t.altholdIsUpdate = false) :
    updateAltHold_calls n t = (List.replicate n false, t) := by
  induction n with
  | zero => rfl
  | succ k ih =>
    simp only [updateAltHold_calls, updateAltHold_of_clear t h, ih, List.replicate_succ]

/-- C6 (update-flag latch): in every state where `altholdIsUpdate` is true (the
sampler has set it), the next call of `updateAltHold` returns true and clears
the flag, touching nothing else; every call made in a state where the flag is
still clear returns false and changes nothing, so any number of further
consecutive calls return false and leave the flag false. -/
theorem updateAltHold_latch (s : State) (h : s.altholdIsUpdate = true) :
    (updateAltHold s).1 = true
    ∧ (updateAltHold s).2 = { s with altholdIsUpdate := false }
    ∧ (updateAltHold s).2.altholdIsUpdate = false
    ∧ (∀ t : State, t.altholdIsUpdate = false → updateAltHold t = (false, t))
    ∧ (∀ n : Nat, (updateAltHold_calls n (updateAltHold s).2).1 = List.replicate n false
        ∧ (updateAltHold_calls n (updateAltHold s).2).2.altholdIsUpdate = false) := by
  have e : updateAltHold s = (true, { s with altholdIsUpdate := false }) := by
    simp [updateAltHold, h]
  refine ⟨by rw [e], by rw [e], by rw [e], updateAltHold_of_clear, fun n => ?_⟩
  rw [e, updateAltHold_calls_of_clear n _ rfl]
  exact ⟨rfl, rfl⟩

/-- Concrete instance of `updateAltHold_latch`: after a sampler pass that accepts
a reading and sets the flag, the first read returns true and the next three
return false. -/
theorem updateAltHold_latch_witness :
    (updateAltHold
        (altHoldUpdate_pass sampleSamplerEnv ⟨10, 0⟩ (programStart samplePids)).2).1 = true
    ∧ (updateAltHold_calls 3
        (updateAltHold
          (altHoldUpdate_pass sampleSamplerEnv ⟨10, 0⟩ (programStart samplePids)).2).2).1
        = [false, false, false] :=
  have h := updateAltHold_latch
    (altHoldUpdate_pass sampleSamplerEnv ⟨10, 0⟩ (programStart samplePids)).2
    (altHoldUpdate_pass_sets_flag sampleSamplerEnv ⟨10, 0⟩ (programStart samplePids)
      rfl rfl (by decide) (by decide))
  ⟨h.1, (h.2.2.2.2 3).1⟩

/-! ### `updateTargetAltitude` -/

theorem GET_SEC_TIMEDIFF_eq (tv last_tv : timeval) :
    GET_SEC_TIMEDIFF tv last_tv = tv.toSec - last_tv.toSec := by
  simp only [GET_SEC_TIMEDIFF, timeval.toSec]
  push_cast
  ring

/-- A call whose throttle is 0 or outside the float band around `lastThrottle`
takes the recording branch: it stores the throttle and the clock reading and
sets `targetAlt` to the current altitude. -/
theorem updateTargetAltitude_jump (tv : timeval) (throttle : ℚ) (s : State)
    (h : throttle = 0 ∨ throttle < float_sub s.lastThrottle FLT_0_03
      ∨ float_add s.lastThrottle FLT_0_03 < throttle) :
    updateTargetAltitude tv throttle s
      = { s with lastThrottle := throttle, last_tv := tv, targetAlt := s.aslRaw } := by
  have hc : ¬ (throttle ≠ 0 ∧ (throttle ≤ float_add s.lastThrottle FLT_0_03
      ∧ throttle ≥ float_sub s.lastThrottle FLT_0_03)) := by
    rintro ⟨h0, h1, h2⟩
    rcases h with h | h | h
    · exact h0 h
    · exact absurd h2 (not_le.mpr h)
    · exact absurd h1 (not_le.mpr h)
  simp only [updateTargetAltitude]
  rw [if_neg hc]
  rfl

/-- The recording branch, for a call made by the control loop. -/
theorem targetCall_jump (s : State) (c : TargetCall)
    (h : c.throttle = 0 ∨ c.throttle < float_sub s.lastThrottle FLT_0_03
      ∨ float_add s.lastThrottle FLT_0_03 < c.throttle) :
    targetCall s c
      = { s with aslRaw := c.altitude, lastThrottle := c.throttle, last_tv := c.tv,
                 targetAlt := c.altitude } :=
  updateTargetAltitude_jump c.tv c.throttle { s with aslRaw := c.altitude } h

/-- The current altitude after a call is the one published when it was made. -/
theorem targetCall_current (s : State) (c : TargetCall) :
    getCurrentAltHoldAltitude (targetCall s c) = c.altitude := by
  simp only [getCurrentAltHoldAltitude, targetCall, updateTargetAltitude]
  split_ifs <;> rfl

/-- A call with a non-zero throttle inside the float band around `lastThrottle`
keeps `lastThrottle` and `last_tv`. -/
theorem targetCall_stable_keeps (s : State) (c : TargetCall)
    (h : c.throttle ≠ 0 ∧ float_sub s.lastThrottle FLT_0_03 ≤ c.throttle
      ∧ c.throttle ≤ float_add s.lastThrottle FLT_0_03) :
    (targetCall s c).lastThrottle = s.lastThrottle ∧ (targetCall s c).last_tv = s.last_tv := by
  have hc : c.throttle ≠ 0 ∧ (c.throttle ≤ float_add s.lastThrottle FLT_0_03
      ∧ c.throttle ≥ float_sub s.lastThrottle FLT_0_03) := ⟨h.1, h.2.2, h.2.1⟩
  simp only [targetCall, updateTargetAltitude]
  rw [if_pos hc]
  split_ifs <;> exact ⟨rfl, rfl⟩

/-- A call with a non-zero throttle inside the band, made 3 s or more after
`last_tv`, keeps `targetAlt`. -/
theorem targetCall_stable_late (s : State) (c : TargetCall)
    (h : c.throttle ≠ 0 ∧ float_sub s.lastThrottle FLT_0_03 ≤ c.throttle
      ∧ c.throttle ≤ float_add s.lastThrottle FLT_0_03)
    (ht : s.last_tv.toSec + 3 ≤ c.tv.toSec) :
    (targetCall s c).targetAlt = s.targetAlt := by
  have hc : c.throttle ≠ 0 ∧ (c.throttle ≤ float_add s.lastThrottle FLT_0_03
      ∧ c.throttle ≥ float_sub s.lastThrottle FLT_0_03) := ⟨h.1, h.2.2, h.2.1⟩
  have hd : GET_SEC_TIMEDIFF c.tv s.last_tv ≥ 3 := by
    rw [GET_SEC_TIMEDIFF_eq]
    linarith
  simp only [targetCall, updateTargetAltitude]
  rw [if_pos hc, if_pos hd]

/-- The same, read through `getTargetAlt`. -/
theorem targetCall_stable_late_get (s : State) (c : TargetCall)
    (h : c.throttle ≠ 0 ∧ float_sub s.lastThrottle FLT_0_03 ≤ c.throttle
      ∧ c.throttle ≤ float_add s.lastThrottle FLT_0_03)
    (ht : s.last_tv.toSec + 3 ≤ c.tv.toSec) :
    getTargetAlt (targetCall s c) = getTargetAlt s :=
  targetCall_stable_late s c h ht

theorem targetCalls_cons (s : State) (c : TargetCall) (cs : List TargetCall) :
    targetCalls s (c :: cs) = targetCalls (targetCall s c) cs := rfl

theorem targetCalls_append (s : State) (cs ds : List TargetCall) :
    targetCalls s (cs ++ ds) = targetCalls (targetCalls s cs) ds := by
  simp only [targetCalls, List.foldl_append]

/-- A sequence of calls inside the band keeps `lastThrottle` and `last_tv`. -/
theorem targetCalls_stable_keeps (r : ℚ) (cs : List TargetCall) :
    ∀ s : State, s.lastThrottle = r →
      (∀ c ∈ cs, c.throttle ≠ 0 ∧ float_sub r FLT_0_03 ≤ c.throttle
        ∧ c.throttle ≤ float_add r FLT_0_03) →
      (targetCalls s cs).lastThrottle = r ∧ (targetCalls s cs).last_tv = s.last_tv := by
  induction cs with
  | nil => intro s hr _; exact ⟨hr, rfl⟩
  | cons c l ih =>
    intro s hr h
    have hc := h c (List.mem_cons_self c l)
    rw [← hr] at hc
    have k := targetCall_stable_keeps s c hc
    rw [targetCalls_cons]
    have step := ih (targetCall s c) (k.1.trans hr) (fun d hd => h d (List.mem_cons_of_mem c hd))
    exact ⟨step.1, step.2.trans k.2⟩

/-- A sequence of calls inside the band, all made 3 s or more after `last_tv`,
keeps `targetAlt`. -/
theorem targetCalls_stable_late (r : ℚ) (t0 : timeval) (cs : List TargetCall) :
    ∀ s : State, s.lastThrottle = r → s.last_tv = t0 →
      (∀ c ∈ cs, c.throttle ≠ 0 ∧ float_sub r FLT_0_03 ≤ c.throttle
        ∧ c.throttle ≤ float_add r FLT_0_03) →
      (∀ c ∈ cs, t0.toSec + 3 ≤ c.tv.toSec) →
      (targetCalls s cs).targetAlt = s.targetAlt := by
  induction cs with
  | nil => intro s _ _ _ _; rfl
  | cons c l ih =>
    intro s hr ht h hl
    have hc := h c (List.mem_cons_self c l)
    rw [← hr] at hc
    have hlc := hl c (List.mem_cons_self c l)
    rw [← ht] at hlc
    have k := targetCall_stable_keeps s c hc
    rw [targetCalls_cons,
      ih (targetCall s c) (k.1.trans hr) (k.2.trans ht)
        (fun d hd => h d (List.mem_cons_of_mem c hd))
        (fun d hd => hl d (List.mem_cons_of_mem c hd))]
    exact targetCall_stable_late s c hc hlc

/-- In a sequence with non-decreasing clock readings, the calls up to one made at
or after `m` are the calls made before `m` followed by calls made at or after `m`. -/
theorem take_split_at_mark (m : ℚ) (cs : List TargetCall) :
    ∀ (n : Nat) (c : TargetCall),
      cs.Pairwise (fun a b => a.tv.toSec ≤ b.tv.toSec) → cs[n]? = some c → m ≤ c.tv.toSec →
      ∃ mid : List TargetCall,
        cs.take n = cs.takeWhile (fun d => decide (d.tv.toSec < m)) ++ mid
        ∧ (∀ d ∈ mid, d ∈ cs ∧ m ≤ d.tv.toSec) := by
  induction cs with
  | nil => intro n c _ h _; simp at h
  | cons a l ih =>
    intro n c hs hn hc
    rw [List.pairwise_cons] at hs
    by_cases ha : a.tv.toSec < m
    · cases n with
      | zero =>
        simp only [List.getElem?_cons_zero, Option.some.injEq] at hn
        rw [hn] at ha
        exact absurd ha (not_lt.mpr hc)
      | succ k =>
        simp only [List.getElem?_cons_succ] at hn
        obtain ⟨mid, e, hmid⟩ := ih k c hs.2 hn hc
        refine ⟨mid, ?_, fun d hd => ⟨List.mem_cons_of_mem a (hmid d hd).1, (hmid d hd).2⟩⟩
        rw [List.take_succ_cons, e, List.takeWhile_cons_of_pos (by simpa using ha)]
        rfl
    · refine ⟨(a :: l).take n, ?_, fun d hd => ?_⟩
      · rw [List.takeWhile_cons_of_neg (by simpa using ha)]
        rfl
      · have hmem := List.mem_of_mem_take hd
        refine ⟨hmem, ?_⟩
        rcases List.mem_cons.mp hmem with e | e
        · rw [e]; exact not_lt.mp ha
        · exact le_trans (not_lt.mp ha) (hs.1 d e)

/-- The sample state with reference throttle 1500 recorded at 100 s. -/
theorem sampleHoldState_eq :
    sampleHoldState
      = { programStart samplePids with
          aslRaw := 20, lastThrottle := 1500, last_tv := ⟨100, 0⟩, targetAlt := 20 } :=
  targetCall_jump _ _ (Or.inr (Or.inr (by
    show float_add 0 FLT_0_03 < 1500
    rw [float_add_zero_FLT]
    norm_num [FLT_0_03])))

/-- The sample state with reference throttle `0.031f` recorded at 100 s. -/
theorem sampleEdgeState_eq :
    sampleEdgeState
      = { programStart samplePids with
          aslRaw := 20, lastThrottle := 8321499 / 268435456, last_tv := ⟨100, 0⟩,
          targetAlt := 20 } :=
  targetCall_jump _ _ (Or.inr (Or.inr (by
    show float_add 0 FLT_0_03 < 8321499 / 268435456
    rw [float_add_zero_FLT]
    norm_num [FLT_0_03])))

/-- C7, as stated, fails at the lower edge of the band: with reference throttle
`0.031f` recorded at 100 s and `targetAlt = 20`, a call at 104 s with throttle
`0.001f` is non-zero and within `0.03` of the reference, yet the float limit
`lastThrottle - 0.03f` is above the throttle, the code takes the recording branch
and `targetAlt` becomes the current altitude 30. -/
theorem targetAlt_freeze_counterexample :
    sampleEdgeState.lastThrottle = 8321499 / 268435456
    ∧ sampleEdgeState.last_tv = ⟨100, 0⟩
    ∧ getTargetAlt sampleEdgeState = 20
    ∧ sampleEdgeCall.throttle ≠ 0
    ∧ |sampleEdgeCall.throttle - sampleEdgeState.lastThrottle| ≤ 3 / 100
    ∧ sampleEdgeState.last_tv.toSec + 3 ≤ sampleEdgeCall.tv.toSec
    ∧ getTargetAlt (targetCall sampleEdgeState sampleEdgeCall) = 30 := by
  have hl : sampleEdgeState.lastThrottle = 8321499 / 268435456 := by
    rw [sampleEdgeState_eq]
  have ht : sampleEdgeState.last_tv = ⟨100, 0⟩ := by rw [sampleEdgeState_eq]
  have ha : getTargetAlt sampleEdgeState = 20 := by rw [sampleEdgeState_eq]; rfl
  have hj : targetCall sampleEdgeState sampleEdgeCall
      = { sampleEdgeState with
          aslRaw := sampleEdgeCall.altitude, lastThrottle := sampleEdgeCall.throttle,
          last_tv := sampleEdgeCall.tv, targetAlt := sampleEdgeCall.altitude } :=
    targetCall_jump _ _ (Or.inr (Or.inl (by
      rw [hl, float_sub_edge_FLT]
      norm_num [sampleEdgeCall])))
  refine ⟨hl, ht, ha, by norm_num [sampleEdgeCall], ?_, ?_, ?_⟩
  · rw [hl]
    norm_num [sampleEdgeCall, abs_le]
  · rw [ht]
    norm_num [sampleEdgeCall, timeval.toSec]
  · rw [hj]
    norm_num [getTargetAlt, sampleEdgeCall]

/-- C7, amended (target-altitude freeze): take any state, with reference
`lastThrottle` recorded at `last_tv = t0`, and any sequence of
`updateTargetAltitude` calls with non-decreasing clock readings in which each
throttle is non-zero and inside the band the code computes in float arithmetic,
`lastThrottle - 0.03f ≤ throttle ≤ lastThrottle + 0.03f`.  Every call of the
sequence made at a time `≥ t0 + 3 s` leaves `targetAlt` unchanged, whatever the
altitudes are, and `targetAlt` after it is the value after the calls made before
the 3 s mark. -/
theorem targetAlt_freeze (s : State) (cs : List TargetCall)
    (hstable : ∀ c ∈ cs, c.throttle ≠ 0 ∧ float_sub s.lastThrottle FLT_0_03 ≤ c.throttle
      ∧ c.throttle ≤ float_add s.lastThrottle FLT_0_03)
    (hclock : cs.Pairwise (fun a b => a.tv.toSec ≤ b.tv.toSec))
    (n : Nat) (c : TargetCall) (hn : cs[n]? = some c)
    (hlate : s.last_tv.toSec + 3 ≤ c.tv.toSec) :
    getTargetAlt (targetCalls s (cs.take (n + 1))) = getTargetAlt (targetCalls s (cs.take n))
    ∧ getTargetAlt (targetCalls s (cs.take (n + 1)))
        = getTargetAlt (targetCalls s
            (cs.takeWhile (fun d => decide (d.tv.toSec < s.last_tv.toSec + 3)))) := by
  obtain ⟨mid, e, hmid⟩ := take_split_at_mark (s.last_tv.toSec + 3) cs n c hclock hn hlate
  have hc : c ∈ cs := List.getElem?_mem hn
  have e1 : cs.take (n + 1)
      = cs.takeWhile (fun d => decide (d.tv.toSec < s.last_tv.toSec + 3)) ++ (mid ++ [c]) := by
    rw [List.take_succ, hn, e, List.append_assoc]
    rfl
  have hpre : ∀ d ∈ cs.takeWhile (fun d => decide (d.tv.toSec < s.last_tv.toSec + 3)),
      d.throttle ≠ 0 ∧ float_sub s.lastThrottle FLT_0_03 ≤ d.throttle
        ∧ d.throttle ≤ float_add s.lastThrottle FLT_0_03 :=
    fun d hd => hstable d ((List.takeWhile_prefix _).subset hd)
  have k := targetCalls_stable_keeps s.lastThrottle _ s rfl hpre
  have a1 := targetCalls_stable_late s.lastThrottle s.last_tv mid _ k.1 k.2
    (fun d hd => hstable d (hmid d hd).1) (fun d hd => (hmid d hd).2)
  have a2 := targetCalls_stable_late s.lastThrottle s.last_tv (mid ++ [c]) _ k.1 k.2
    (fun d hd => by
      rcases List.mem_append.mp hd with h | h
      · exact hstable d (hmid d h).1
      · rw [List.mem_singleton.mp h]; exact hstable c hc)
    (fun d hd => by
      rcases List.mem_append.mp hd with h | h
      · exact (hmid d h).2
      · rw [List.mem_singleton.mp h]; exact hlate)
  have r1 : (targetCalls s (cs.take (n + 1))).targetAlt
      = (targetCalls s
          (cs.takeWhile (fun d => decide (d.tv.toSec < s.last_tv.toSec + 3)))).targetAlt := by
    rw [e1, targetCalls_append]
    exact a2
  have r2 : (targetCalls s (cs.take n)).targetAlt
      = (targetCalls s
          (cs.takeWhile (fun d => decide (d.tv.toSec < s.last_tv.toSec + 3)))).targetAlt := by
    rw [e, targetCalls_append]
    exact a1
  exact ⟨r1.trans r2.symm, r1⟩

/-- Concrete instance of `targetAlt_freeze`: reference throttle 1500 recorded at
100 s; calls at 101 s, 103 s and 104.5 s inside the float band
`[1499.969970703125, 1500.030029296875]`.  The third call (index 2) is past the
3 s mark: it leaves `targetAlt` as the second call left it. -/
theorem targetAlt_freeze_witness :
    getTargetAlt (targetCalls sampleHoldState (sampleHoldCalls.take 3))
      = getTargetAlt (targetCalls sampleHoldState (sampleHoldCalls.take 2)) :=
  (targetAlt_freeze sampleHoldState sampleHoldCalls
    (by
      have hl : sampleHoldState.lastThrottle = 1500 := by rw [sampleHoldState_eq]
      intro c hc
      rw [hl, float_sub_1500_FLT, float_add_1500_FLT]
      simp only [sampleHoldCalls, List.mem_cons, List.mem_singleton, List.not_mem_nil,
        or_false] at hc
      rcases hc with rfl | rfl | rfl <;> norm_num)
    (by
      simp only [sampleHoldCalls, List.pairwise_cons, List.mem_cons, List.mem_singleton,
        List.not_mem_nil, timeval.toSec]
      norm_num)
    2 { tv := ⟨104, 500000⟩, throttle := 1500 - 1 / 64, altitude := 38 } rfl
    (by
      have hl : sampleHoldState.last_tv = ⟨100, 0⟩ := by rw [sampleHoldState_eq]
      rw [hl]
      norm_num [timeval.toSec])).1

/-- After each call of a sequence whose throttles are 0 or leave the float band
around the previous one, `targetAlt` is the current altitude. -/
theorem targetCalls_jumping (cs : List TargetCall) :
    ∀ (s : State) (n : Nat),
      List.Chain (fun a b : ℚ => b = 0 ∨ b < float_sub a FLT_0_03 ∨ float_add a FLT_0_03 < b)
        s.lastThrottle (cs.map TargetCall.throttle) →
      0 < n → n ≤ cs.length →
      (targetCalls s (cs.take n)).targetAlt = (targetCalls s (cs.take n)).aslRaw := by
  induction cs with
  | nil =>
    intro s n _ hpos hn
    simp only [List.length_nil] at hn
    omega
  | cons c l ih =>
    intro s n hch hpos hn
    rw [List.map_cons, List.chain_cons] at hch
    have e := targetCall_jump s c hch.1
    cases n with
    | zero => omega
    | succ m =>
      rw [List.take_succ_cons, targetCalls_cons]
      rcases Nat.eq_zero_or_pos m with hm | hm
      · rw [hm, List.take_zero, e]
        rfl
      · have hlen : m ≤ l.length := by
          simp only [List.length_cons] at hn
          omega
        exact ih (targetCall s c) m (by rw [e]; exact hch.2) hm hlen

/-- C8, as stated, fails at the upper edge of the band: with reference throttle
1500 recorded at 100 s and `targetAlt = 20`, the throttle 1500.030029296875
differs from 1500 by more than 0.03, yet it equals the float limit
`lastThrottle + 0.03f`; the call at 104 s is in the band, freezes and leaves
`targetAlt = 20` while the current altitude is 30. -/
theorem targetAlt_tracking_counterexample :
    sampleHoldState.lastThrottle = 1500
    ∧ getTargetAlt sampleHoldState = 20
    ∧ 3 / 100 < |sampleBandTopCall.throttle - sampleHoldState.lastThrottle|
    ∧ getTargetAlt (targetCall sampleHoldState sampleBandTopCall) = 20
    ∧ getCurrentAltHoldAltitude (targetCall sampleHoldState sampleBandTopCall) = 30 := by
  have hl : sampleHoldState.lastThrottle = 1500 := by rw [sampleHoldState_eq]
  have ht : sampleHoldState.last_tv = ⟨100, 0⟩ := by rw [sampleHoldState_eq]
  have ha : getTargetAlt sampleHoldState = 20 := by rw [sampleHoldState_eq]; rfl
  have hband : sampleBandTopCall.throttle ≠ 0
      ∧ float_sub sampleHoldState.lastThrottle FLT_0_03 ≤ sampleBandTopCall.throttle
      ∧ sampleBandTopCall.throttle ≤ float_add sampleHoldState.lastThrottle FLT_0_03 := by
    rw [hl, float_sub_1500_FLT, float_add_1500_FLT]
    norm_num [sampleBandTopCall]
  have hlate : sampleHoldState.last_tv.toSec + 3 ≤ sampleBandTopCall.tv.toSec := by
    rw [ht]
    norm_num [sampleBandTopCall, timeval.toSec]
  have hjump : 3 / 100 < |sampleBandTopCall.throttle - sampleHoldState.lastThrottle| := by
    rw [hl]
    norm_num [sampleBandTopCall, abs_of_pos]
  have h30 : sampleBandTopCall.altitude = 30 := rfl
  exact ⟨hl, ha, hjump,
    (targetCall_stable_late_get sampleHoldState sampleBandTopCall hband hlate).trans ha,
    (targetCall_current sampleHoldState sampleBandTopCall).trans h30⟩

/-- C8, amended (target-altitude tracking): a call of `updateTargetAltitude` whose
throttle is 0 or lies outside the band the code computes in float arithmetic
(`throttle < lastThrottle - 0.03f` or `throttle > lastThrottle + 0.03f`) leaves
`targetAlt` equal to `getCurrentAltHoldAltitude()`, whatever the clock reading;
and in a sequence of calls each of whose throttles is 0 or outside that band
around the previous one (the first around the stored `lastThrottle`), `targetAlt`
equals the current altitude after every call. -/
theorem targetAlt_tracking (s : State) :
    (∀ (tv : timeval) (throttle : ℚ),
        (throttle = 0 ∨ throttle < float_sub s.lastThrottle FLT_0_03
          ∨ float_add s.lastThrottle FLT_0_03 < throttle) →
        getTargetAlt (updateTargetAltitude tv throttle s)
          = getCurrentAltHoldAltitude (updateTargetAltitude tv throttle s))
    ∧ (∀ (cs : List TargetCall) (n : Nat),
        List.Chain (fun a b : ℚ => b = 0 ∨ b < float_sub a FLT_0_03 ∨ float_add a FLT_0_03 < b)
          s.lastThrottle (cs.map TargetCall.throttle) →
        0 < n → n ≤ cs.length →
        getTargetAlt (targetCalls s (cs.take n))
          = getCurrentAltHoldAltitude (targetCalls s (cs.take n))) := by
  constructor
  · intro tv throttle h
    rw [updateTargetAltitude_jump tv throttle s h]
    rfl
  · intro cs n hch hpos hn
    exact targetCalls_jumping cs s n hch hpos hn

/-- Concrete instance of `targetAlt_tracking`: from program start the throttles
1500, 1510, 0 at altitudes 20, 21, 23; after the second call `targetAlt` is the
current altitude. -/
theorem targetAlt_tracking_witness :
    getTargetAlt (targetCalls (programStart samplePids) (sampleJumpCalls.take 2))
      = getCurrentAltHoldAltitude
          (targetCalls (programStart samplePids) (sampleJumpCalls.take 2)) :=
  (targetAlt_tracking (programStart samplePids)).2 sampleJumpCalls 2
    (by
      have h1 : float_add 0 FLT_0_03 < 1500 := by
        rw [float_add_zero_FLT]
        norm_num [FLT_0_03]
      have h2 : float_add 1500 FLT_0_03 < 1510 := by
        rw [float_add_1500_FLT]
        norm_num
      show List.Chain (fun a b : ℚ => b = 0 ∨ b < float_sub a FLT_0_03 ∨ float_add a FLT_0_03 < b)
        0 [1500, 1510, 0]
      exact List.Chain.cons (Or.inr (Or.inr h1))
        (List.Chain.cons (Or.inr (Or.inr h2)) (List.Chain.cons (Or.inl rfl) List.Chain.nil)))
    (by decide) (by decide)

/-! ### `motorControler` and `getThrottleOffsetByAltHold` -/

/-- C9: in `motorControler` the altitude throttle offset is 0 whenever
`getAltHoldIsReady()` or `getEnableAltHold()` is false, whatever offset is
cached; when both are true it is what
`getThrottleOffsetByAltHold(updateAltHold())` returns.  In both cases
`centerThrottle = (throttlePowerLevel + offset) · slopeFactor`, the factor being
what `getSlopeThrottleOffset` returns. -/
theorem motorControler_centerThrottle (env : Env) (s : State) :
    ((getAltHoldIsReady s = false ∨ getEnableAltHold s = false) →
        (motorControler env s).1.altThrottleOffset = 0)
    ∧ ((getAltHoldIsReady s = true ∧ getEnableAltHold s = true) →
        (motorControler env s).1.altThrottleOffset
          = (getThrottleOffsetByAltHold env (updateAltHold s).1 (updateAltHold s).2).1)
    ∧ (motorControler env s).1.slopThrottleOffset = getSlopeThrottleOffset env
    ∧ (motorControler env s).1.centerThrottle
        = (env.getThrottlePowerLevel + (motorControler env s).1.altThrottleOffset)
            * (motorControler env s).1.slopThrottleOffset := by
  refine ⟨?_, ?_, rfl, rfl⟩
  · intro h
    have hc : (getAltHoldIsReady s && getEnableAltHold s) = false := by
      rcases h with h | h <;> simp [h]
    simp only [motorControler, hc]
    rfl
  · rintro ⟨h1, h2⟩
    have hc : (getAltHoldIsReady s && getEnableAltHold s) = true := by
      simp [h1, h2]
    simp only [motorControler, hc, if_true]

/-- Concrete instance of `motorControler_centerThrottle`: hold ready but not
enabled, cached offset 77, throttle 1500, `zGravity = 1`: the offset used is 0
and `centerThrottle` is 1500. -/
theorem motorControler_centerThrottle_witness :
    (motorControler sampleEnv sampleDisabledState).1.altThrottleOffset = 0
    ∧ (motorControler sampleEnv sampleDisabledState).1.centerThrottle = 1500 := by
  have h := motorControler_centerThrottle sampleEnv sampleDisabledState
  have h0 := h.1 (Or.inr rfl)
  refine ⟨h0, ?_⟩
  rw [h.2.2.2, h0, h.2.2.1]
  norm_num [sampleEnv, getSlopeThrottleOffset]

/-- A call `getThrottleOffsetByAltHold(false)` returns the cached offset and
changes nothing. -/
theorem getThrottleOffsetByAltHold_false (env : Env) (s : State) :
    getThrottleOffsetByAltHold env false s = (s.output, s) := rfl

/-- Consecutive calls `getThrottleOffsetByAltHold(false)` return the cached offset
and change nothing. -/
theorem holdCalls_eq (envs : List Env) (s : State) :
    holdCalls envs s = (envs.map (fun _ => s.output), s) := by
  induction envs with
  | nil => rfl
  | cons env l ih =>
    simp only [holdCalls, getThrottleOffsetByAltHold_false, ih, List.map_cons]

/-- A call `getThrottleOffsetByAltHold(true)` caches the value it returns. -/
theorem getThrottleOffsetByAltHold_caches (env : Env) (s : State) :
    (getThrottleOffsetByAltHold env true s).2.output
      = (getThrottleOffsetByAltHold env true s).1 := rfl

/-- C10 (zero-order hold): in every state `getThrottleOffsetByAltHold(false)`
returns the cached offset and changes nothing: not the cached offset, not
`altHoltAltOutput`, not the two altitude-hold PID records.  The cached offset is
what the most recent call with `true` returned, and 0 at program start; any
number of consecutive calls with `false` return that same value. -/
theorem getThrottleOffsetByAltHold_hold (env : Env) (s : State) :
    getThrottleOffsetByAltHold env false s = (s.output, s)
    ∧ (getThrottleOffsetByAltHold env false s).2.output = s.output
    ∧ (getThrottleOffsetByAltHold env false s).2.altHoltAltOutput = s.altHoltAltOutput
    ∧ (getThrottleOffsetByAltHold env false s).2.pid.altHoldAltSettings
        = s.pid.altHoldAltSettings
    ∧ (getThrottleOffsetByAltHold env false s).2.pid.altHoldlSpeedSettings
        = s.pid.altHoldlSpeedSettings
    ∧ (∀ env0 : Env, (getThrottleOffsetByAltHold env false
          (getThrottleOffsetByAltHold env0 true s).2).1
        = (getThrottleOffsetByAltHold env0 true s).1)
    ∧ (∀ (env0 : Env) (envs : List Env),
        (holdCalls envs (getThrottleOffsetByAltHold env0 true s).2).1
          = envs.map (fun _ => (getThrottleOffsetByAltHold env0 true s).1))
    ∧ (∀ (pid : PidGlobals) (envs : List Env),
        (holdCalls envs (programStart pid)).1 = envs.map (fun _ => 0))
    ∧ (∀ envs : List Env, holdCalls envs s = (envs.map (fun _ => s.output), s)) := by
  refine ⟨rfl, rfl, rfl, rfl, rfl, fun _ => rfl, fun env0 envs => ?_, fun pid envs => ?_,
    fun envs => holdCalls_eq envs s⟩
  · rw [holdCalls_eq, getThrottleOffsetByAltHold_caches]
  · rw [holdCalls_eq]
    rfl

/-- Concrete instance of `getThrottleOffsetByAltHold_hold`: with 77 cached, three
calls with `false` return 77 each and leave the state as it was. -/
theorem getThrottleOffsetByAltHold_hold_witness :
    holdCalls [sampleEnv, sampleEnv, sampleEnv] sampleDisabledState
      = ([77, 77, 77], sampleDisabledState) :=
  (getThrottleOffsetByAltHold_hold sampleEnv sampleDisabledState).2.2.2.2.2.2.2.2
    [sampleEnv, sampleEnv, sampleEnv]

/-- The sample state after `flyControlerInit`, a first call at altitude 40 and a
new altitude sample of 30. -/
theorem sampleTargetState_eq :
    sampleTargetState
      = { sampleInitState with
          aslRaw := 30, lastThrottle := 1500, last_tv := ⟨100, 0⟩, targetAlt := 40 } := by
  have hj := targetCall_jump sampleInitState
    { tv := ⟨100, 0⟩, throttle := 1500, altitude := 40 }
    (Or.inr (Or.inr (by
      show float_add 0 FLT_0_03 < 1500
      rw [float_add_zero_FLT]
      norm_num [FLT_0_03])))
  unfold sampleTargetState
  rw [hj]

/-! ### Bounds of the throttle offset -/

/-- With `min_limit ≤ max_limit` the clamp lands in `[min_limit, max_limit]`. -/
theorem LIMIT_MIN_MAX_VALUE_mem (x lo hi : ℚ) (h : lo ≤ hi) :
    lo ≤ LIMIT_MIN_MAX_VALUE x lo hi ∧ LIMIT_MIN_MAX_VALUE x lo hi ≤ hi := by
  unfold LIMIT_MIN_MAX_VALUE
  exact ⟨le_min (le_max_right x lo) h, min_le_right _ _⟩

/-- With `min_limit ≤ max_limit` a value inside the interval is returned as it is. -/
theorem LIMIT_MIN_MAX_VALUE_of_mem (x lo hi : ℚ) (h1 : lo ≤ x) (h2 : x ≤ hi) :
    LIMIT_MIN_MAX_VALUE x lo hi = x := by
  unfold LIMIT_MIN_MAX_VALUE
  rw [max_eq_left h1, min_eq_left h2]

/-- What a call with `true` returns: the speed-PID output, clamped. -/
theorem getThrottleOffsetByAltHold_true (env : Env) (s : State) :
    (getThrottleOffsetByAltHold env true s).1
      = LIMIT_MIN_MAX_VALUE (getAltHoldSpeedPidOutput env (getAltHoldAltPidOutput env s)).1
          (-s.maxThrottleOffset) s.maxThrottleOffset := rfl

/-- No call of `getThrottleOffsetByAltHold` writes `maxThrottleOffset`. -/
theorem getThrottleOffsetByAltHold_maxThrottleOffset (env : Env) (b : Bool) (s : State) :
    (getThrottleOffsetByAltHold env b s).2.maxThrottleOffset = s.maxThrottleOffset := by
  cases b <;> rfl

/-- Every call of `getThrottleOffsetByAltHold` returns the value in the cache
after it. -/
theorem getThrottleOffsetByAltHold_output (env : Env) (b : Bool) (s : State) :
    (getThrottleOffsetByAltHold env b s).2.output = (getThrottleOffsetByAltHold env b s).1 := by
  cases b <;> rfl

/-- One call keeps the returned value within `±maxThrottleOffset` when the cache
was within it. -/
theorem getThrottleOffsetByAltHold_mem (env : Env) (b : Bool) (s : State)
    (hM : 0 ≤ s.maxThrottleOffset)
    (hc : -s.maxThrottleOffset ≤ s.output ∧ s.output ≤ s.maxThrottleOffset) :
    -s.maxThrottleOffset ≤ (getThrottleOffsetByAltHold env b s).1
      ∧ (getThrottleOffsetByAltHold env b s).1 ≤ s.maxThrottleOffset := by
  cases b with
  | false => exact hc
  | true =>
    rw [getThrottleOffsetByAltHold_true]
    exact LIMIT_MIN_MAX_VALUE_mem _ _ _ (by linarith)

/-- Every value a sequence of calls returns is within `±maxThrottleOffset` when
the cache was within it at the start. -/
theorem offsetCalls_mem (calls : List (Env × Bool)) :
    ∀ s : State, 0 ≤ s.maxThrottleOffset →
      (-s.maxThrottleOffset ≤ s.output ∧ s.output ≤ s.maxThrottleOffset) →
      ∀ v ∈ (offsetCalls calls s).1, -s.maxThrottleOffset ≤ v ∧ v ≤ s.maxThrottleOffset := by
  induction calls with
  | nil => intro s _ _ v hv; simp [offsetCalls] at hv
  | cons c cs ih =>
    intro s hM hc v hv
    have h1 := getThrottleOffsetByAltHold_mem c.1 c.2 s hM hc
    have hm := getThrottleOffsetByAltHold_maxThrottleOffset c.1 c.2 s
    have ho := getThrottleOffsetByAltHold_output c.1 c.2 s
    simp only [offsetCalls, List.mem_cons] at hv
    rcases hv with hv | hv
    · rw [hv]; exact h1
    · have h2 := ih (getThrottleOffsetByAltHold c.1 c.2 s).2 (by rw [hm]; exact hM)
        (by rw [hm, ho]; exact h1) v hv
      rw [hm] at h2
      exact h2

/-- C11: with `maxThrottleOffset ≥ 0` and the cached offset within
`±maxThrottleOffset` (as at program start, where it is 0), every value returned
by any sequence of calls of `getThrottleOffsetByAltHold`, with any arguments and
any PID law, lies in `[−maxThrottleOffset, +maxThrottleOffset]`; a call with
`true` returns the speed-PID output clamped to that interval.  After
`flyControlerInit` at program start the interval is `[−1000, 1000]`. -/
theorem getThrottleOffsetByAltHold_bounded (s : State) (hM : 0 ≤ s.maxThrottleOffset)
    (hc : -s.maxThrottleOffset ≤ s.output ∧ s.output ≤ s.maxThrottleOffset) :
    (∀ calls : List (Env × Bool), ∀ v ∈ (offsetCalls calls s).1,
        -s.maxThrottleOffset ≤ v ∧ v ≤ s.maxThrottleOffset)
    ∧ (∀ env : Env,
        (getThrottleOffsetByAltHold env true s).1
          = LIMIT_MIN_MAX_VALUE (getAltHoldSpeedPidOutput env (getAltHoldAltPidOutput env s)).1
              (-s.maxThrottleOffset) s.maxThrottleOffset
        ∧ -s.maxThrottleOffset ≤ (getThrottleOffsetByAltHold env true s).1
        ∧ (getThrottleOffsetByAltHold env true s).1 ≤ s.maxThrottleOffset)
    ∧ (∀ (pid : PidGlobals) (calls : List (Env × Bool)),
        (flyControlerInit (programStart pid)).maxThrottleOffset = 1000
        ∧ ∀ v ∈ (offsetCalls calls (flyControlerInit (programStart pid))).1,
            -1000 ≤ v ∧ v ≤ 1000) := by
  refine ⟨fun calls => offsetCalls_mem calls s hM hc, fun env => ⟨rfl, ?_⟩, fun pid calls => ?_⟩
  · exact getThrottleOffsetByAltHold_mem env true s hM hc
  · have hm : (flyControlerInit (programStart pid)).maxThrottleOffset = 1000 := rfl
    have ho : (flyControlerInit (programStart pid)).output = 0 := rfl
    refine ⟨hm, fun v hv => ?_⟩
    have h := offsetCalls_mem calls (flyControlerInit (programStart pid))
      (by rw [hm]; norm_num) (by rw [hm, ho]; norm_num) v hv
    rw [hm] at h
    exact h

/-- Concrete instance of `getThrottleOffsetByAltHold_bounded`: after
`flyControlerInit`, with target state `sampleTargetState`, a call with `true`
returns a value within `±1000`. -/
theorem getThrottleOffsetByAltHold_bounded_witness :
    -sampleTargetState.maxThrottleOffset ≤ (getThrottleOffsetByAltHold sampleEnv true sampleTargetState).1
    ∧ (getThrottleOffsetByAltHold sampleEnv true sampleTargetState).1
        ≤ sampleTargetState.maxThrottleOffset :=
  have hm : sampleTargetState.maxThrottleOffset = 1000 := by
    rw [sampleTargetState_eq]
    rfl
  have ho : sampleTargetState.output = 0 := by
    rw [sampleTargetState_eq]
    rfl
  ((getThrottleOffsetByAltHold_bounded sampleTargetState (by rw [hm]; norm_num)
    (by rw [hm, ho]; norm_num)).2.1 sampleEnv).2

/-! ### The mixer -/

/-- The value `motorControler` computes for each rotor, in terms of its locals. -/
theorem motorControler_out_eq (env : Env) (s : State) (rotor : Rotor) :
    (motorControler env s).1.out rotor
      = env.getMotorGain rotor
        * LIMIT_MIN_MAX_VALUE
            ((motorControler env s).1.centerThrottle
              + LIMIT_MIN_MAX_VALUE
                  ((spec_mixingCoeff rotor).1 * (motorControler env s).1.rollRateOutput
                    + (spec_mixingCoeff rotor).2.1 * (motorControler env s).1.pitchRateOutput
                    + (spec_mixingCoeff rotor).2.2 * (motorControler env s).1.yawRateOutput)
                  (-env.getPidOutputLimitation) env.getPidOutputLimitation)
            (motorControler env s).1.minLimit (motorControler env s).1.maxLimit := by
  cases rotor <;>
    simp only [MotorControlerLocals.out, spec_mixingCoeff, motorControler, one_mul, neg_one_mul]

/-- C13 (quad-X mixing): the roll, pitch and yaw rate outputs that
`motorControler` mixes are the three values `getRatePidOutput` returns, called
after `getAttitudePidOutput` on the state left by the throttle-offset step.  For
every such `r, p, y` and every rotor `motorControler` computes
`gain[rotor] · clamp(centerThrottle + clamp(cr·r + cp·p + cy·y, −L, +L), minLimit, maxLimit)`
where `L` is the PID output limitation, `(cr, cp, cy)` is the row of the spec's
table for the rotor,
`maxLimit = min(centerThrottle + adjustPowerLevelRange, maxPowerLevel)` and
`minLimit = max(centerThrottle − adjustPowerLevelRange, minPowerLevel)`. -/
theorem motorControler_mixing (env : Env) (s : State) :
    ((motorControler env s).1.rollRateOutput, (motorControler env s).1.pitchRateOutput,
        (motorControler env s).1.yawRateOutput)
      = (getRatePidOutput env (getAttitudePidOutput env
            (if getAltHoldIsReady s && getEnableAltHold s then
                  getThrottleOffsetByAltHold env (updateAltHold s).1 (updateAltHold s).2
                else (0, s)).2)).1
    ∧ (∀ r p y : ℚ,
        (getRatePidOutput env (getAttitudePidOutput env
            (if getAltHoldIsReady s && getEnableAltHold s then
                  getThrottleOffsetByAltHold env (updateAltHold s).1 (updateAltHold s).2
                else (0, s)).2)).1 = (r, p, y) →
        ∀ rotor : Rotor,
          (motorControler env s).1.out rotor
            = env.getMotorGain rotor
              * LIMIT_MIN_MAX_VALUE
                  ((motorControler env s).1.centerThrottle
                    + LIMIT_MIN_MAX_VALUE
                        ((spec_mixingCoeff rotor).1 * r + (spec_mixingCoeff rotor).2.1 * p
                          + (spec_mixingCoeff rotor).2.2 * y)
                        (-env.getPidOutputLimitation) env.getPidOutputLimitation)
                  (motorControler env s).1.minLimit (motorControler env s).1.maxLimit)
    ∧ (motorControler env s).1.maxLimit
        = min ((motorControler env s).1.centerThrottle + env.getAdjustPowerLeveRange)
            env.getMaxPowerLeve
    ∧ (motorControler env s).1.minLimit
        = max ((motorControler env s).1.centerThrottle - env.getAdjustPowerLeveRange)
            env.getMinPowerLevel
    ∧ spec_mixingCoeff Rotor.SOFT_PWM_CCW1 = (1, -1, 1)
    ∧ spec_mixingCoeff Rotor.SOFT_PWM_CCW2 = (-1, 1, 1)
    ∧ spec_mixingCoeff Rotor.SOFT_PWM_CW1 = (-1, -1, -1)
    ∧ spec_mixingCoeff Rotor.SOFT_PWM_CW2 = (1, 1, -1) := by
  have tie : ((motorControler env s).1.rollRateOutput, (motorControler env s).1.pitchRateOutput,
        (motorControler env s).1.yawRateOutput)
      = (getRatePidOutput env (getAttitudePidOutput env
            (if getAltHoldIsReady s && getEnableAltHold s then
                  getThrottleOffsetByAltHold env (updateAltHold s).1 (updateAltHold s).2
                else (0, s)).2)).1 := rfl
  refine ⟨tie, fun r p y h rotor => ?_, rfl, rfl, rfl, rfl, rfl, rfl⟩
  have e := tie.trans h
  have hr : (motorControler env s).1.rollRateOutput = r := congrArg Prod.fst e
  have hp : (motorControler env s).1.pitchRateOutput = p := congrArg (fun x => x.2.1) e
  have hy : (motorControler env s).1.yawRateOutput = y := congrArg (fun x => x.2.2) e
  rw [motorControler_out_eq, hr, hp, hy]

/-- Concrete instance of `motorControler_mixing`: tilted, rotating airframe with
throttle 1800; the rate outputs are −4, −2, −4 and the value for CCW1 is 1794. -/
theorem motorControler_mixing_witness :
    (motorControler sampleTiltEnv sampleInitState).1.out Rotor.SOFT_PWM_CCW1 = 1794 := by
  have hrate : (getRatePidOutput sampleTiltEnv (getAttitudePidOutput sampleTiltEnv
      (if getAltHoldIsReady sampleInitState && getEnableAltHold sampleInitState then
        getThrottleOffsetByAltHold sampleTiltEnv (updateAltHold sampleInitState).1
          (updateAltHold sampleInitState).2
      else (0, sampleInitState)).2)).1 = (-4, -2, -4) := by
    norm_num [sampleTiltEnv, motorControler, sampleEnv, sampleInitState, flyControlerInit,
    programStart, getAttitudePidOutput, getRatePidOutput, samplePidCalculation, samplePids,
    samplePid, setPidSp, LIMIT_MIN_MAX_VALUE, getSlopeThrottleOffset, yawTransform, float_sub,
    getAltHoldIsReady, getEnableAltHold, getGyroLimit, setAltitudePidOutputLimitation,
    setAngularLimit, setGyroLimit, setAdjustPeriod, setLeaveFlyControlerFlag,
    MotorControlerLocals.out]
  rw [(motorControler_mixing sampleTiltEnv sampleInitState).2.1 (-4) (-2) (-4) hrate
    Rotor.SOFT_PWM_CCW1]
  norm_num [sampleTiltEnv, spec_mixingCoeff, motorControler, sampleEnv, sampleInitState, flyControlerInit,
    programStart, getAttitudePidOutput, getRatePidOutput, samplePidCalculation, samplePids,
    samplePid, setPidSp, LIMIT_MIN_MAX_VALUE, getSlopeThrottleOffset, yawTransform, float_sub,
    getAltHoldIsReady, getEnableAltHold, getGyroLimit, setAltitudePidOutputLimitation,
    setAngularLimit, setGyroLimit, setAdjustPeriod, setLeaveFlyControlerFlag,
    MotorControlerLocals.out]

/-- C12, as stated, fails for a negative PID output limitation: with limitation
−100, throttle 1800 and all three rate outputs 0, the value computed for CCW1 is
1700, while `gain · clamp(centerThrottle, minLimit, maxLimit)` is 1800. -/
theorem motorControler_symmetry_counterexample :
    (motorControler sampleNegLimitEnv sampleInitState).1.rollRateOutput = 0
    ∧ (motorControler sampleNegLimitEnv sampleInitState).1.pitchRateOutput = 0
    ∧ (motorControler sampleNegLimitEnv sampleInitState).1.yawRateOutput = 0
    ∧ (motorControler sampleNegLimitEnv sampleInitState).1.out Rotor.SOFT_PWM_CCW1 = 1700
    ∧ sampleNegLimitEnv.getMotorGain Rotor.SOFT_PWM_CCW1
        * LIMIT_MIN_MAX_VALUE (motorControler sampleNegLimitEnv sampleInitState).1.centerThrottle
            (motorControler sampleNegLimitEnv sampleInitState).1.minLimit
            (motorControler sampleNegLimitEnv sampleInitState).1.maxLimit = 1800 := by
  norm_num [sampleNegLimitEnv, motorControler, sampleEnv, sampleInitState, flyControlerInit,
    programStart, getAttitudePidOutput, getRatePidOutput, samplePidCalculation, samplePids,
    samplePid, setPidSp, LIMIT_MIN_MAX_VALUE, getSlopeThrottleOffset, yawTransform, float_sub,
    getAltHoldIsReady, getEnableAltHold, getGyroLimit, setAltitudePidOutputLimitation,
    setAngularLimit, setGyroLimit, setAdjustPeriod, setLeaveFlyControlerFlag,
    MotorControlerLocals.out]

/-- C12, amended (motor mixing symmetry): when the PID output limitation is not
negative and the roll, pitch and yaw rate outputs are all zero, each of the four
values computed by `motorControler` before integer truncation equals
`gain[rotor] · clamp(centerThrottle, minLimit, maxLimit)`. -/
theorem motorControler_symmetry (env : Env) (s : State)
    (hL : 0 ≤ env.getPidOutputLimitation)
    (hr : (motorControler env s).1.rollRateOutput = 0)
    (hp : (motorControler env s).1.pitchRateOutput = 0)
    (hy : (motorControler env s).1.yawRateOutput = 0) (rotor : Rotor) :
    (motorControler env s).1.out rotor
      = env.getMotorGain rotor
        * LIMIT_MIN_MAX_VALUE (motorControler env s).1.centerThrottle
            (motorControler env s).1.minLimit (motorControler env s).1.maxLimit := by
  rw [motorControler_out_eq, hr, hp, hy]
  simp only [mul_zero, add_zero]
  rw [LIMIT_MIN_MAX_VALUE_of_mem 0 _ _ (by linarith) hL, add_zero]

/-- Concrete instance of `motorControler_symmetry`: level attitude, no rotation,
limitation 300, throttle 1500. -/
theorem motorControler_symmetry_witness :
    (motorControler sampleEnv sampleInitState).1.out Rotor.SOFT_PWM_CW2
      = sampleEnv.getMotorGain Rotor.SOFT_PWM_CW2
        * LIMIT_MIN_MAX_VALUE (motorControler sampleEnv sampleInitState).1.centerThrottle
            (motorControler sampleEnv sampleInitState).1.minLimit
            (motorControler sampleEnv sampleInitState).1.maxLimit :=
  motorControler_symmetry sampleEnv sampleInitState
    (by norm_num [sampleEnv])
    (by norm_num [motorControler, sampleEnv, sampleInitState, flyControlerInit,
    programStart, getAttitudePidOutput, getRatePidOutput, samplePidCalculation, samplePids,
    samplePid, setPidSp, LIMIT_MIN_MAX_VALUE, getSlopeThrottleOffset, yawTransform, float_sub,
    getAltHoldIsReady, getEnableAltHold, getGyroLimit, setAltitudePidOutputLimitation,
    setAngularLimit, setGyroLimit, setAdjustPeriod, setLeaveFlyControlerFlag,
    MotorControlerLocals.out])
    (by norm_num [motorControler, sampleEnv, sampleInitState, flyControlerInit,
    programStart, getAttitudePidOutput, getRatePidOutput, samplePidCalculation, samplePids,
    samplePid, setPidSp, LIMIT_MIN_MAX_VALUE, getSlopeThrottleOffset, yawTransform, float_sub,
    getAltHoldIsReady, getEnableAltHold, getGyroLimit, setAltitudePidOutputLimitation,
    setAngularLimit, setGyroLimit, setAdjustPeriod, setLeaveFlyControlerFlag,
    MotorControlerLocals.out])
    (by norm_num [motorControler, sampleEnv, sampleInitState, flyControlerInit,
    programStart, getAttitudePidOutput, getRatePidOutput, samplePidCalculation, samplePids,
    samplePid, setPidSp, LIMIT_MIN_MAX_VALUE, getSlopeThrottleOffset, yawTransform, float_sub,
    getAltHoldIsReady, getEnableAltHold, getGyroLimit, setAltitudePidOutputLimitation,
    setAngularLimit, setGyroLimit, setAdjustPeriod, setLeaveFlyControlerFlag,
    MotorControlerLocals.out])
    Rotor.SOFT_PWM_CW2

/-- C15 (stale-read policy): a pass of the sampler loop in which the sensor read
reports failure, or returns a value greater than `maxAlt`, changes nothing:
`aslRaw`, `altholdSpeed` and `altholdIsUpdate` are as before (and so is the rest
of the state and the thread's time stamp). -/
theorem altHoldUpdate_pass_stale (io : SamplerEnv) (tv2 : timeval) (s : State)
    (h : io.result = false ∨ getMaxAlt s < io.data) :
    (altHoldUpdate_pass io tv2 s).2.aslRaw = s.aslRaw
    ∧ (altHoldUpdate_pass io tv2 s).2.altholdSpeed = s.altholdSpeed
    ∧ (altHoldUpdate_pass io tv2 s).2.altholdIsUpdate = s.altholdIsUpdate
    ∧ (altHoldUpdate_pass io tv2 s).2 = s
    ∧ (io.TIME_IS_UPDATED tv2 = true → (altHoldUpdate_pass io tv2 s).1 = tv2) := by
  have hc : (io.result && decide (io.data ≤ getMaxAlt s)) = false := by
    rcases h with h | h
    · simp [h]
    · simp [not_le.mpr h]
  have e : (altHoldUpdate_pass io tv2 s).2 = s := by
    unfold altHoldUpdate_pass
    rw [hc]
    by_cases ht : io.TIME_IS_UPDATED tv2 = true
    · rw [if_pos ht]
      simp only [Bool.false_eq_true, if_false]
    · rw [if_neg ht]
  refine ⟨by rw [e], by rw [e], by rw [e], e, fun ht => ?_⟩
  unfold altHoldUpdate_pass
  rw [hc, if_pos ht]
  simp only [Bool.false_eq_true, if_false]

/-- Concrete instance of `altHoldUpdate_pass_stale`: a read of 60 cm with
`maxAlt = 50` leaves the published altitude at its old value. -/
theorem altHoldUpdate_pass_stale_witness :
    (altHoldUpdate_pass sampleHighRead ⟨10, 0⟩ sampleDisabledState).2.aslRaw
      = sampleDisabledState.aslRaw :=
  (altHoldUpdate_pass_stale sampleHighRead ⟨10, 0⟩ sampleDisabledState
    (Or.inr (by decide))).1

/-- C16: `initAltHold` returns true if and only if `getAltHoldIsReady()` is true
after the call.  When no backend is selected, the sensor init fails, the mutex
creation fails or the thread creation fails, it returns false and ready is
false; otherwise it returns true and ready is true. -/
theorem initAltHold_ready (io : InitEnv) (s : State) :
    (initAltHold io s).1 = getAltHoldIsReady (initAltHold io s).2
    ∧ ((io.backend = AltHoldModule.noModule ∨ io.sensorInit = false
          ∨ io.pthread_mutex_init ≠ 0 ∨ io.pthread_create ≠ 0) →
        (initAltHold io s).1 = false ∧ getAltHoldIsReady (initAltHold io s).2 = false)
    ∧ ((io.backend ≠ AltHoldModule.noModule ∧ io.sensorInit = true
          ∧ io.pthread_mutex_init = 0 ∧ io.pthread_create = 0) →
        (initAltHold io s).1 = true ∧ getAltHoldIsReady (initAltHold io s).2 = true) := by
  rcases io with ⟨backend, sensorInit, m, c⟩
  cases backend <;> cases sensorInit <;> by_cases hm : m = 0 <;> by_cases hc : c = 0 <;>
    simp [initAltHold, initAltHold_threads, getAltHoldIsReady, setAltHoldIsReady, setMaxAlt, hm, hc]

/-- Concrete instance of `initAltHold_ready`: a sensor that does not respond. -/
theorem initAltHold_ready_witness :
    (initAltHold sampleInitSensorFails sampleInitState).1 = false
    ∧ getAltHoldIsReady (initAltHold sampleInitSensorFails sampleInitState).2 = false :=
  (initAltHold_ready sampleInitSensorFails sampleInitState).2.1 (Or.inr (Or.inl rfl))

/-! ### The ready flag -/

theorem updateAltHold_ready (s : State) :
    getAltHoldIsReady (updateAltHold s).2 = getAltHoldIsReady s := by
  unfold updateAltHold
  split_ifs <;> rfl

theorem updateTargetAltitude_ready (tv : timeval) (throttle : ℚ) (s : State) :
    getAltHoldIsReady (updateTargetAltitude tv throttle s) = getAltHoldIsReady s := by
  unfold updateTargetAltitude
  split_ifs <;> rfl

theorem getThrottleOffsetByAltHold_ready (env : Env) (b : Bool) (s : State) :
    getAltHoldIsReady (getThrottleOffsetByAltHold env b s).2 = getAltHoldIsReady s := by
  cases b <;> rfl

theorem motorControler_ready (env : Env) (s : State) :
    getAltHoldIsReady (motorControler env s).2 = getAltHoldIsReady s := by
  have e : getAltHoldIsReady (motorControler env s).2
      = getAltHoldIsReady
          (if getAltHoldIsReady s && getEnableAltHold s then
            getThrottleOffsetByAltHold env (updateAltHold s).1 (updateAltHold s).2
          else (0, s)).2 := rfl
  rw [e]
  split_ifs
  · rw [getThrottleOffsetByAltHold_ready, updateAltHold_ready]
  · rfl

/-- A call that is not a failed `initAltHold` keeps a true ready flag. -/
theorem ApiCall.run_ready (c : ApiCall) (s : State) (h : getAltHoldIsReady s = true)
    (hc : c.isFailedInit s = false) : getAltHoldIsReady (c.run s) = true := by
  cases c with
  | setEnableAltHold v => exact h
  | updateAltHold => exact (updateAltHold_ready s).trans h
  | updateTargetAltitude tv throttle => exact (updateTargetAltitude_ready tv throttle s).trans h
  | motorControler env => exact (motorControler_ready env s).trans h
  | initAltHold io =>
    have h1 : (RaspberryPilot.initAltHold io s).1 = true := by
      simpa [ApiCall.isFailedInit] using hc
    have h2 : (RaspberryPilot.initAltHold io s).1
        = getAltHoldIsReady (RaspberryPilot.initAltHold io s).2 := by
      rcases io with ⟨backend, sensorInit, m, k⟩
      cases backend <;> cases sensorInit <;> by_cases hm : m = 0 <;> by_cases hk : k = 0 <;>
        simp [RaspberryPilot.initAltHold, initAltHold_threads, getAltHoldIsReady,
          setAltHoldIsReady, setMaxAlt, hm, hk]
    exact h2.symm.trans h1

/-- C17, as stated, fails: after a successful `initAltHold` ready is true; a
repeated `initAltHold` whose sensor init fails leaves it false; a further
successful `initAltHold` sets it true a second time. -/
theorem ready_terminal_counterexample :
    getAltHoldIsReady (initAltHold sampleInitOk sampleInitState).2 = true
    ∧ getAltHoldIsReady
        (initAltHold sampleInitSensorFails (initAltHold sampleInitOk sampleInitState).2).2 = false
    ∧ getAltHoldIsReady
        (initAltHold sampleInitOk
          (initAltHold sampleInitSensorFails
            (initAltHold sampleInitOk sampleInitState).2).2).2 = true := by
  refine ⟨?_, ?_, ?_⟩ <;>
    simp [initAltHold, initAltHold_threads, getAltHoldIsReady, setAltHoldIsReady, setMaxAlt,
      sampleInitOk, sampleInitSensorFails]

/-- C17, amended: once `getAltHoldIsReady()` is true it stays true after
`setEnableAltHold`, `updateAltHold`, `updateTargetAltitude`, `motorControler` and
a repeated `initAltHold` that returns true, and after every sequence of such
calls; a repeated `initAltHold` that returns false leaves it false.  Of these
calls only an `initAltHold` that returns true takes ready from false to true. -/
theorem ready_terminal (s : State) (h : getAltHoldIsReady s = true) :
    (∀ c : ApiCall, c.isFailedInit s = false → getAltHoldIsReady (c.run s) = true)
    ∧ (∀ cs : List ApiCall, noFailedInit cs s = true → getAltHoldIsReady (runCalls s cs) = true)
    ∧ (∀ io : InitEnv, (initAltHold io s).1 = false →
        getAltHoldIsReady (initAltHold io s).2 = false)
    ∧ (∀ (c : ApiCall) (t : State), getAltHoldIsReady t = false →
        getAltHoldIsReady (c.run t) = true →
        ∃ io : InitEnv, (initAltHold io t).1 = true ∧ c.run t = (initAltHold io t).2) := by
  refine ⟨fun c hc => ApiCall.run_ready c s h hc, fun cs => ?_, fun io hio => ?_, ?_⟩
  · induction cs generalizing s with
    | nil => intro _; exact h
    | cons c l ih =>
      intro hn
      simp only [noFailedInit, Bool.and_eq_true, Bool.not_eq_true'] at hn
      exact ih (c.run s) (ApiCall.run_ready c s h hn.1) hn.2
  · rcases io with ⟨backend, sensorInit, m, k⟩
    revert hio
    cases backend <;> cases sensorInit <;> by_cases hm : m = 0 <;> by_cases hk : k = 0 <;>
      simp [initAltHold, initAltHold_threads, getAltHoldIsReady, setAltHoldIsReady, setMaxAlt,
        hm, hk]
  · intro c t ht hr
    cases c with
    | setEnableAltHold v => exact absurd (ht.symm.trans hr) (by decide)
    | updateAltHold =>
      exact absurd (ht.symm.trans ((updateAltHold_ready t).symm.trans hr)) (by decide)
    | updateTargetAltitude tv throttle =>
      exact absurd (ht.symm.trans ((updateTargetAltitude_ready tv throttle t).symm.trans hr))
        (by decide)
    | motorControler env =>
      exact absurd (ht.symm.trans ((motorControler_ready env t).symm.trans hr)) (by decide)
    | initAltHold io =>
      refine ⟨io, ?_, rfl⟩
      have hr2 : getAltHoldIsReady (RaspberryPilot.initAltHold io t).2 = true := hr
      rcases io with ⟨backend, sensorInit, m, k⟩
      revert hr2
      cases backend <;> cases sensorInit <;> by_cases hm : m = 0 <;> by_cases hk : k = 0 <;>
        simp [RaspberryPilot.initAltHold, initAltHold_threads, getAltHoldIsReady,
          setAltHoldIsReady, setMaxAlt, hm, hk]

/-- Concrete instance of `ready_terminal`: after a successful `initAltHold`, a
mixer cycle keeps ready true. -/
theorem ready_terminal_witness :
    getAltHoldIsReady
      ((ApiCall.motorControler sampleEnv).run (initAltHold sampleInitOk sampleInitState).2)
      = true :=
  (ready_terminal (initAltHold sampleInitOk sampleInitState).2
    (by simp [initAltHold, initAltHold_threads, getAltHoldIsReady, setAltHoldIsReady, setMaxAlt,
      sampleInitOk])).1
    (ApiCall.motorControler sampleEnv) rfl

/-! ### Calls of `updateTargetAltitude` that do not freeze -/

/-- A call with a non-zero throttle inside the band, made fewer than 3 s after
`last_tv`, sets `targetAlt` to the altitude published when it is made. -/
theorem targetCall_stable_early (s : State) (c : TargetCall)
    (h : c.throttle ≠ 0 ∧ float_sub s.lastThrottle FLT_0_03 ≤ c.throttle
      ∧ c.throttle ≤ float_add s.lastThrottle FLT_0_03)
    (ht : c.tv.toSec < s.last_tv.toSec + 3) :
    getTargetAlt (targetCall s c) = c.altitude := by
  have hc : c.throttle ≠ 0 ∧ (c.throttle ≤ float_add s.lastThrottle FLT_0_03
      ∧ c.throttle ≥ float_sub s.lastThrottle FLT_0_03) := ⟨h.1, h.2.2, h.2.1⟩
  have hd : ¬ (GET_SEC_TIMEDIFF c.tv s.last_tv ≥ 3) := by
    rw [GET_SEC_TIMEDIFF_eq]
    intro hge
    linarith
  simp only [getTargetAlt, targetCall, updateTargetAltitude]
  rw [if_pos hc, if_neg hd]
  rfl

/-- C18, as stated, fails: with reference throttle 1500 recorded at 100 s, a call
at 101 s with throttle 1500.015625 (inside the band, 1 s elapsed) and altitude 25
sets `targetAlt = 25` but leaves `lastThrottle = 1500` and `last_tv` at 100 s. -/
theorem updateTargetAltitude_record_counterexample :
    sampleHoldState.lastThrottle = 1500
    ∧ sampleHoldState.last_tv = ⟨100, 0⟩
    ∧ sampleStableCall.throttle ≠ 1500
    ∧ getTargetAlt (targetCall sampleHoldState sampleStableCall) = 25
    ∧ (targetCall sampleHoldState sampleStableCall).lastThrottle = 1500
    ∧ (targetCall sampleHoldState sampleStableCall).last_tv = ⟨100, 0⟩ := by
  have hl : sampleHoldState.lastThrottle = 1500 := by rw [sampleHoldState_eq]
  have ht : sampleHoldState.last_tv = ⟨100, 0⟩ := by rw [sampleHoldState_eq]
  have hband : sampleStableCall.throttle ≠ 0
      ∧ float_sub sampleHoldState.lastThrottle FLT_0_03 ≤ sampleStableCall.throttle
      ∧ sampleStableCall.throttle ≤ float_add sampleHoldState.lastThrottle FLT_0_03 := by
    rw [hl, float_sub_1500_FLT, float_add_1500_FLT]
    norm_num [sampleStableCall]
  have hearly : sampleStableCall.tv.toSec < sampleHoldState.last_tv.toSec + 3 := by
    rw [ht]
    norm_num [sampleStableCall, timeval.toSec]
  have hne : sampleStableCall.throttle ≠ 1500 := by norm_num [sampleStableCall]
  have h25 : sampleStableCall.altitude = 25 := rfl
  have k := targetCall_stable_keeps sampleHoldState sampleStableCall hband
  exact ⟨hl, ht, hne,
    (targetCall_stable_early sampleHoldState sampleStableCall hband hearly).trans h25,
    k.1.trans hl, k.2.trans ht⟩

/-- C18, amended: every call of `updateTargetAltitude` that does not freeze sets
`targetAlt` to the current altitude.  A call whose throttle is 0 or outside the
band the code computes in float arithmetic (`throttle < lastThrottle - 0.03f` or
`throttle > lastThrottle + 0.03f`) also sets `lastThrottle` to the throttle and
`last_tv` to the current time; a call whose throttle is non-zero and inside that
band, made fewer than 3 s after `last_tv`, leaves `lastThrottle` and `last_tv` as
they were. -/
theorem updateTargetAltitude_not_frozen (tv : timeval) (throttle : ℚ) (s : State) :
    (¬ (throttle ≠ 0
          ∧ (float_sub s.lastThrottle FLT_0_03 ≤ throttle
            ∧ throttle ≤ float_add s.lastThrottle FLT_0_03)
          ∧ 3 ≤ GET_SEC_TIMEDIFF tv s.last_tv) →
        getTargetAlt (updateTargetAltitude tv throttle s) = getCurrentAltHoldAltitude s)
    ∧ ((throttle = 0 ∨ throttle < float_sub s.lastThrottle FLT_0_03
          ∨ float_add s.lastThrottle FLT_0_03 < throttle) →
        (updateTargetAltitude tv throttle s).lastThrottle = throttle
        ∧ (updateTargetAltitude tv throttle s).last_tv = tv)
    ∧ ((throttle ≠ 0
          ∧ (float_sub s.lastThrottle FLT_0_03 ≤ throttle
            ∧ throttle ≤ float_add s.lastThrottle FLT_0_03)
          ∧ GET_SEC_TIMEDIFF tv s.last_tv < 3) →
        (updateTargetAltitude tv throttle s).lastThrottle = s.lastThrottle
        ∧ (updateTargetAltitude tv throttle s).last_tv = s.last_tv
        ∧ getTargetAlt (updateTargetAltitude tv throttle s) = getCurrentAltHoldAltitude s) := by
  refine ⟨fun h => ?_, fun h => ?_, fun h => ?_⟩
  · by_cases hs : throttle ≠ 0 ∧ (throttle ≤ float_add s.lastThrottle FLT_0_03
        ∧ throttle ≥ float_sub s.lastThrottle FLT_0_03)
    · have ht : ¬ (GET_SEC_TIMEDIFF tv s.last_tv ≥ 3) :=
        fun ht => h ⟨hs.1, ⟨hs.2.2, hs.2.1⟩, ht⟩
      simp only [updateTargetAltitude]
      rw [if_pos hs, if_neg ht]
      rfl
    · simp only [updateTargetAltitude]
      rw [if_neg hs]
      rfl
  · have e := updateTargetAltitude_jump tv throttle s h
    rw [e]
    exact ⟨rfl, rfl⟩
  · have hs : throttle ≠ 0 ∧ (throttle ≤ float_add s.lastThrottle FLT_0_03
        ∧ throttle ≥ float_sub s.lastThrottle FLT_0_03) := ⟨h.1, h.2.1.2, h.2.1.1⟩
    have ht : ¬ (GET_SEC_TIMEDIFF tv s.last_tv ≥ 3) := not_le.mpr h.2.2
    simp only [updateTargetAltitude]
    rw [if_pos hs, if_neg ht]
    exact ⟨rfl, rfl, rfl⟩

/-- Concrete instance of `updateTargetAltitude_not_frozen`: throttle 1500.015625
one second after the reference 1500 was recorded; the reference stays. -/
theorem updateTargetAltitude_not_frozen_witness :
    (updateTargetAltitude ⟨101, 0⟩ (1500 + 1 / 64) sampleHoldState).lastThrottle
      = sampleHoldState.lastThrottle :=
  have hl : sampleHoldState.lastThrottle = 1500 := by rw [sampleHoldState_eq]
  have ht : sampleHoldState.last_tv = ⟨100, 0⟩ := by rw [sampleHoldState_eq]
  have hyp : (1500 + 1 / 64 : ℚ) ≠ 0
      ∧ (float_sub sampleHoldState.lastThrottle FLT_0_03 ≤ 1500 + 1 / 64
        ∧ 1500 + 1 / 64 ≤ float_add sampleHoldState.lastThrottle FLT_0_03)
      ∧ GET_SEC_TIMEDIFF ⟨101, 0⟩ sampleHoldState.last_tv < 3 := by
    rw [hl, ht, float_sub_1500_FLT, float_add_1500_FLT]
    norm_num [GET_SEC_TIMEDIFF]
  ((updateTargetAltitude_not_frozen ⟨101, 0⟩ (1500 + 1 / 64) sampleHoldState).2.2 hyp).1

/-! ### The two cascades -/

/-- C19, as stated, fails: in `sampleTargetState` the target altitude is 40, the
current altitude 30 and the setpoint stored in the altitude PID 0.  A call with
`true` evaluates the PID with setpoint 0 (output −30, stored clamped as −15);
with the target altitude installed as setpoint the stored value would be 10. -/
theorem getThrottleOffsetByAltHold_setpoint_counterexample :
    getTargetAlt sampleTargetState = 40
    ∧ getCurrentAltHoldAltitude sampleTargetState = 30
    ∧ sampleTargetState.pid.altHoldAltSettings.setpoint = 0
    ∧ (getThrottleOffsetByAltHold sampleEnv true sampleTargetState).2.altHoltAltOutput = -15
    ∧ (getThrottleOffsetByAltHold sampleEnv true
        { sampleTargetState with
          pid := { sampleTargetState.pid with
            altHoldAltSettings :=
              setPidSp sampleTargetState.pid.altHoldAltSettings
                (getTargetAlt sampleTargetState) } }).2.altHoltAltOutput = 10 := by
  rw [sampleTargetState_eq]
  norm_num [sampleInitState, flyControlerInit, programStart, setAltitudePidOutputLimitation,
    setAngularLimit, setGyroLimit, setAdjustPeriod, setLeaveFlyControlerFlag,
    getThrottleOffsetByAltHold, getAltHoldAltPidOutput, getAltHoldSpeedPidOutput,
    getCurrentAltHoldAltitude, getAltitudePidOutputLimitation, getTargetAlt, sampleEnv,
    samplePidCalculation, samplePids, samplePid, setPidSp, LIMIT_MIN_MAX_VALUE]

/-- C19, amended: a call of `getThrottleOffsetByAltHold` with `true` evaluates
the altitude PID on the record `altHoldAltSettings` as it is, with the setpoint
stored in it, and measurement the current altitude; `targetAlt` is not read (the
result is the same for every value of it).  The PID output clamped to
`±altitudePidOutputLimitation` is stored in `altHoltAltOutput`, and that stored
value is installed as the setpoint of the speed PID before the speed PID is
evaluated on `getCurrentAltHoldSpeed()`. -/
theorem getThrottleOffsetByAltHold_cascade (env : Env) (s : State) :
    (getThrottleOffsetByAltHold env true s).2.altHoltAltOutput
      = LIMIT_MIN_MAX_VALUE
          (env.pidCalculation s.pid.altHoldAltSettings (getCurrentAltHoldAltitude s)).1
          (-getAltitudePidOutputLimitation s) (getAltitudePidOutputLimitation s)
    ∧ (getThrottleOffsetByAltHold env true s).2.pid.altHoldAltSettings
      = (env.pidCalculation s.pid.altHoldAltSettings (getCurrentAltHoldAltitude s)).2
    ∧ (setPidSp s.pid.altHoldlSpeedSettings
          (getThrottleOffsetByAltHold env true s).2.altHoltAltOutput).setpoint
      = (getThrottleOffsetByAltHold env true s).2.altHoltAltOutput
    ∧ (getThrottleOffsetByAltHold env true s).1
      = LIMIT_MIN_MAX_VALUE
          (env.pidCalculation
            (setPidSp s.pid.altHoldlSpeedSettings
              (getThrottleOffsetByAltHold env true s).2.altHoltAltOutput)
            env.getCurrentAltHoldSpeed).1
          (-s.maxThrottleOffset) s.maxThrottleOffset
    ∧ (getThrottleOffsetByAltHold env true s).2.pid.altHoldlSpeedSettings
      = (env.pidCalculation
          (setPidSp s.pid.altHoldlSpeedSettings
            (getThrottleOffsetByAltHold env true s).2.altHoltAltOutput)
          env.getCurrentAltHoldSpeed).2
    ∧ (∀ t : ℚ,
        (getThrottleOffsetByAltHold env true { s with targetAlt := t }).1
          = (getThrottleOffsetByAltHold env true s).1
        ∧ (getThrottleOffsetByAltHold env true { s with targetAlt := t }).2
          = { (getThrottleOffsetByAltHold env true s).2 with targetAlt := t }) :=
  ⟨rfl, rfl, rfl, rfl, rfl, fun _ => ⟨rfl, rfl⟩⟩

/-- C20 (attitude-to-rate cascade): with `gyroLimit ≥ 0`, after
`getAttitudePidOutput` each of `rollAttitudeOutput`, `pitchAttitudeOutput` and
`yawAttitudeOutput` lies in `[−gyroLimit, +gyroLimit]`; they are the clamped
outputs of the attitude PIDs on `getRoll()`, `getPitch()` and
`yawTransform(getYaw())`, the attitude PID records are the ones those
evaluations give back and nothing else changes.  In every state `getRatePidOutput` evaluates each rate
PID on its record with the stored attitude output installed as setpoint, returns
the three results unclamped, and leaves in the state the records those
evaluations give back, nothing else changed; when the PID law keeps the setpoint
of a record, the setpoints of the three rate PIDs after the call are the three
attitude outputs. -/
theorem attitude_rate_cascade (env : Env) (s : State) (hg : 0 ≤ getGyroLimit s) :
    (-getGyroLimit s ≤ (getAttitudePidOutput env s).rollAttitudeOutput
      ∧ (getAttitudePidOutput env s).rollAttitudeOutput ≤ getGyroLimit s)
    ∧ (-getGyroLimit s ≤ (getAttitudePidOutput env s).pitchAttitudeOutput
      ∧ (getAttitudePidOutput env s).pitchAttitudeOutput ≤ getGyroLimit s)
    ∧ (-getGyroLimit s ≤ (getAttitudePidOutput env s).yawAttitudeOutput
      ∧ (getAttitudePidOutput env s).yawAttitudeOutput ≤ getGyroLimit s)
    ∧ (getAttitudePidOutput env s).rollAttitudeOutput
        = LIMIT_MIN_MAX_VALUE (env.pidCalculation s.pid.rollAttitudePidSettings env.getRoll).1
            (-getGyroLimit s) (getGyroLimit s)
    ∧ (getAttitudePidOutput env s).pitchAttitudeOutput
        = LIMIT_MIN_MAX_VALUE (env.pidCalculation s.pid.pitchAttitudePidSettings env.getPitch).1
            (-getGyroLimit s) (getGyroLimit s)
    ∧ (getAttitudePidOutput env s).yawAttitudeOutput
        = LIMIT_MIN_MAX_VALUE
            (env.pidCalculation s.pid.yawAttitudePidSettings (yawTransform s env.getYaw)).1
            (-getGyroLimit s) (getGyroLimit s)
    ∧ getAttitudePidOutput env s
        = { s with
            pid := { s.pid with
              rollAttitudePidSettings :=
                (env.pidCalculation s.pid.rollAttitudePidSettings env.getRoll).2
              pitchAttitudePidSettings :=
                (env.pidCalculation s.pid.pitchAttitudePidSettings env.getPitch).2
              yawAttitudePidSettings :=
                (env.pidCalculation s.pid.yawAttitudePidSettings
                  (yawTransform s env.getYaw)).2 }
            rollAttitudeOutput :=
              LIMIT_MIN_MAX_VALUE
                (env.pidCalculation s.pid.rollAttitudePidSettings env.getRoll).1
                (-getGyroLimit s) (getGyroLimit s)
            pitchAttitudeOutput :=
              LIMIT_MIN_MAX_VALUE
                (env.pidCalculation s.pid.pitchAttitudePidSettings env.getPitch).1
                (-getGyroLimit s) (getGyroLimit s)
            yawAttitudeOutput :=
              LIMIT_MIN_MAX_VALUE
                (env.pidCalculation s.pid.yawAttitudePidSettings
                  (yawTransform s env.getYaw)).1
                (-getGyroLimit s) (getGyroLimit s) }
    ∧ (∀ t : State,
        (getRatePidOutput env t).1
          = ((env.pidCalculation (setPidSp t.pid.rollRatePidSettings t.rollAttitudeOutput)
                env.getRollGyro).1,
             (env.pidCalculation (setPidSp t.pid.pitchRatePidSettings t.pitchAttitudeOutput)
                env.getPitchGyro).1,
             (env.pidCalculation (setPidSp t.pid.yawRatePidSettings t.yawAttitudeOutput)
                env.getYawGyro).1)
        ∧ (getRatePidOutput env t).2
          = { t with
              pid := { t.pid with
                rollRatePidSettings :=
                  (env.pidCalculation
                    (setPidSp t.pid.rollRatePidSettings t.rollAttitudeOutput)
                    env.getRollGyro).2
                pitchRatePidSettings :=
                  (env.pidCalculation
                    (setPidSp t.pid.pitchRatePidSettings t.pitchAttitudeOutput)
                    env.getPitchGyro).2
                yawRatePidSettings :=
                  (env.pidCalculation
                    (setPidSp t.pid.yawRatePidSettings t.yawAttitudeOutput)
                    env.getYawGyro).2 } }
        ∧ (setPidSp t.pid.rollRatePidSettings t.rollAttitudeOutput).setpoint
            = t.rollAttitudeOutput
        ∧ (setPidSp t.pid.pitchRatePidSettings t.pitchAttitudeOutput).setpoint
            = t.pitchAttitudeOutput
        ∧ (setPidSp t.pid.yawRatePidSettings t.yawAttitudeOutput).setpoint
            = t.yawAttitudeOutput
        ∧ ((∀ (p : PID_STRUCT) (m : ℚ), (env.pidCalculation p m).2.setpoint = p.setpoint) →
            (getRatePidOutput env t).2.pid.rollRatePidSettings.setpoint = t.rollAttitudeOutput
            ∧ (getRatePidOutput env t).2.pid.pitchRatePidSettings.setpoint
                = t.pitchAttitudeOutput
            ∧ (getRatePidOutput env t).2.pid.yawRatePidSettings.setpoint
                = t.yawAttitudeOutput)) := by
  have hle : -getGyroLimit s ≤ getGyroLimit s := by linarith
  have e1 : (getAttitudePidOutput env s).rollAttitudeOutput
      = LIMIT_MIN_MAX_VALUE (env.pidCalculation s.pid.rollAttitudePidSettings env.getRoll).1
          (-getGyroLimit s) (getGyroLimit s) := rfl
  have e2 : (getAttitudePidOutput env s).pitchAttitudeOutput
      = LIMIT_MIN_MAX_VALUE (env.pidCalculation s.pid.pitchAttitudePidSettings env.getPitch).1
          (-getGyroLimit s) (getGyroLimit s) := rfl
  have e3 : (getAttitudePidOutput env s).yawAttitudeOutput
      = LIMIT_MIN_MAX_VALUE
          (env.pidCalculation s.pid.yawAttitudePidSettings (yawTransform s env.getYaw)).1
          (-getGyroLimit s) (getGyroLimit s) := rfl
  refine ⟨?_, ?_, ?_, e1, e2, e3, rfl,
    fun t => ⟨rfl, rfl, rfl, rfl, rfl, fun hkeep => ?_⟩⟩
  · rw [e1]; exact LIMIT_MIN_MAX_VALUE_mem _ _ _ hle
  · rw [e2]; exact LIMIT_MIN_MAX_VALUE_mem _ _ _ hle
  · rw [e3]; exact LIMIT_MIN_MAX_VALUE_mem _ _ _ hle
  · have r1 : (getRatePidOutput env t).2.pid.rollRatePidSettings
        = (env.pidCalculation (setPidSp t.pid.rollRatePidSettings t.rollAttitudeOutput)
            env.getRollGyro).2 := rfl
    have r2 : (getRatePidOutput env t).2.pid.pitchRatePidSettings
        = (env.pidCalculation (setPidSp t.pid.pitchRatePidSettings t.pitchAttitudeOutput)
            env.getPitchGyro).2 := rfl
    have r3 : (getRatePidOutput env t).2.pid.yawRatePidSettings
        = (env.pidCalculation (setPidSp t.pid.yawRatePidSettings t.yawAttitudeOutput)
            env.getYawGyro).2 := rfl
    rw [r1, r2, r3, hkeep, hkeep, hkeep]
    exact ⟨rfl, rfl, rfl⟩

/-- Concrete instance of `attitude_rate_cascade`: after `flyControlerInit`
(`gyroLimit = 50`) with a tilted airframe the yaw attitude output is within
`±50`. -/
theorem attitude_rate_cascade_witness :
    -getGyroLimit sampleInitState ≤ (getAttitudePidOutput sampleTiltEnv sampleInitState).yawAttitudeOutput
    ∧ (getAttitudePidOutput sampleTiltEnv sampleInitState).yawAttitudeOutput
        ≤ getGyroLimit sampleInitState :=
  (attitude_rate_cascade sampleTiltEnv sampleInitState
    (by norm_num [motorControler, sampleTiltEnv, sampleEnv, sampleInitState, flyControlerInit,
    programStart, getAttitudePidOutput, getRatePidOutput, samplePidCalculation, samplePids,
    samplePid, setPidSp, LIMIT_MIN_MAX_VALUE, getSlopeThrottleOffset, yawTransform, float_sub,
    getAltHoldIsReady, getEnableAltHold, getGyroLimit, setAltitudePidOutputLimitation,
    setAngularLimit, setGyroLimit, setAdjustPeriod, setLeaveFlyControlerFlag])).2.2.1

/-! ### A mixer cycle with altitude hold off -/

/-- With hold not ready or not enabled, the state after `motorControler` is the
state after the attitude and rate PIDs alone. -/
theorem motorControler_off (env : Env) (s : State)
    (h : getAltHoldIsReady s = false ∨ getEnableAltHold s = false) :
    (motorControler env s).2 = (getRatePidOutput env (getAttitudePidOutput env s)).2 := by
  have hc : ¬ ((getAltHoldIsReady s && getEnableAltHold s) = true) := by
    rcases h with h | h <;> simp [h]
  have e : (motorControler env s).2
      = (getRatePidOutput env (getAttitudePidOutput env
          (if getAltHoldIsReady s && getEnableAltHold s then
            getThrottleOffsetByAltHold env (updateAltHold s).1 (updateAltHold s).2
          else (0, s)).2)).2 := rfl
  rw [e, if_neg hc]

/-- With hold ready and enabled and the flag set, `motorControler` reads the flag
as true, asks for a fresh offset and leaves the flag clear. -/
theorem motorControler_on_flag (env : Env) (t : State)
    (h1 : getAltHoldIsReady t = true) (h2 : getEnableAltHold t = true)
    (h3 : t.altholdIsUpdate = true) :
    (updateAltHold t).1 = true
    ∧ (motorControler env t).1.altThrottleOffset
        = (getThrottleOffsetByAltHold env true (updateAltHold t).2).1
    ∧ (motorControler env t).2.altholdIsUpdate = false := by
  have hc : (getAltHoldIsReady t && getEnableAltHold t) = true := by simp [h1, h2]
  have hu : updateAltHold t = (true, { t with altholdIsUpdate := false }) := by
    simp [updateAltHold, h3]
  have e1 : (motorControler env t).1.altThrottleOffset
      = (if getAltHoldIsReady t && getEnableAltHold t then
            getThrottleOffsetByAltHold env (updateAltHold t).1 (updateAltHold t).2
          else (0, t)).1 := rfl
  have e2 : (motorControler env t).2.altholdIsUpdate
      = (if getAltHoldIsReady t && getEnableAltHold t then
            getThrottleOffsetByAltHold env (updateAltHold t).1 (updateAltHold t).2
          else (0, t)).2.altholdIsUpdate := rfl
  refine ⟨by rw [hu], ?_, ?_⟩
  · rw [e1, if_pos hc, hu]
  · rw [e2, if_pos hc, hu]
    rfl

/-- Cycles with hold not ready or not enabled keep the two hold flags, the update
flag, the cached offset, `altHoltAltOutput` and the two altitude-hold PIDs. -/
theorem motorCycles_off (envs : List Env) :
    ∀ s : State, (getAltHoldIsReady s = false ∨ getEnableAltHold s = false) →
      getAltHoldIsReady (motorCycles s envs) = getAltHoldIsReady s
      ∧ getEnableAltHold (motorCycles s envs) = getEnableAltHold s
      ∧ (motorCycles s envs).altholdIsUpdate = s.altholdIsUpdate
      ∧ (motorCycles s envs).output = s.output
      ∧ (motorCycles s envs).altHoltAltOutput = s.altHoltAltOutput
      ∧ (motorCycles s envs).pid.altHoldAltSettings = s.pid.altHoldAltSettings
      ∧ (motorCycles s envs).pid.altHoldlSpeedSettings = s.pid.altHoldlSpeedSettings := by
  induction envs with
  | nil => intro s _; exact ⟨rfl, rfl, rfl, rfl, rfl, rfl, rfl⟩
  | cons env l ih =>
    intro s h
    have e := motorControler_off env s h
    have hr : getAltHoldIsReady (motorControler env s).2 = getAltHoldIsReady s := by
      rw [e]; rfl
    have he : getEnableAltHold (motorControler env s).2 = getEnableAltHold s := by
      rw [e]; rfl
    have k := ih (motorControler env s).2 (by rw [hr, he]; exact h)
    have step : motorCycles s (env :: l) = motorCycles (motorControler env s).2 l := rfl
    rw [step]
    refine ⟨k.1.trans hr, k.2.1.trans he, k.2.2.1.trans ?_, k.2.2.2.1.trans ?_,
      k.2.2.2.2.1.trans ?_, k.2.2.2.2.2.1.trans ?_, k.2.2.2.2.2.2.trans ?_⟩ <;>
      (rw [e]; rfl)

/-- C21: a `motorControler` cycle run while altitude hold is not ready or not
enabled does not call `updateAltHold`: `altholdIsUpdate` is the same after the
cycle as before it, and the cached throttle offset, `altHoltAltOutput` and both
altitude-hold PID records are untouched; the same holds after any number of such
cycles.  So when the flag is set and hold is ready but not enabled, the first
cycle after `setEnableAltHold(true)` still reads the flag as true, asks
`getThrottleOffsetByAltHold` for a fresh offset and clears the flag. -/
theorem motorControler_keeps_flag (env : Env) (s : State)
    (h : getAltHoldIsReady s = false ∨ getEnableAltHold s = false) :
    (motorControler env s).2.altholdIsUpdate = s.altholdIsUpdate
    ∧ (motorControler env s).1.altThrottleOffset = 0
    ∧ (motorControler env s).2.output = s.output
    ∧ (motorControler env s).2.altHoltAltOutput = s.altHoltAltOutput
    ∧ (motorControler env s).2.pid.altHoldAltSettings = s.pid.altHoldAltSettings
    ∧ (motorControler env s).2.pid.altHoldlSpeedSettings = s.pid.altHoldlSpeedSettings
    ∧ (∀ envs : List Env,
        (motorCycles s envs).altholdIsUpdate = s.altholdIsUpdate
        ∧ (motorCycles s envs).output = s.output
        ∧ (motorCycles s envs).pid.altHoldAltSettings = s.pid.altHoldAltSettings
        ∧ (motorCycles s envs).pid.altHoldlSpeedSettings = s.pid.altHoldlSpeedSettings)
    ∧ (∀ (envs : List Env) (env1 : Env),
        s.altholdIsUpdate = true → getAltHoldIsReady s = true →
        (updateAltHold (setEnableAltHold (motorCycles s envs) true)).1 = true
        ∧ (motorControler env1 (setEnableAltHold (motorCycles s envs) true)).1.altThrottleOffset
            = (getThrottleOffsetByAltHold env1 true
                (updateAltHold (setEnableAltHold (motorCycles s envs) true)).2).1
        ∧ (motorControler env1
            (setEnableAltHold (motorCycles s envs) true)).2.altholdIsUpdate = false) := by
  have e := motorControler_off env s h
  have hc : (getAltHoldIsReady s && getEnableAltHold s) = false := by
    rcases h with h | h <;> simp [h]
  refine ⟨by rw [e]; rfl, ?_, by rw [e]; rfl, by rw [e]; rfl, by rw [e]; rfl, by rw [e]; rfl,
    fun envs => ?_, fun envs env1 hf hr => ?_⟩
  · simp only [motorControler, hc]
    rfl
  · have k := motorCycles_off envs s h
    exact ⟨k.2.2.1, k.2.2.2.1, k.2.2.2.2.2.1, k.2.2.2.2.2.2⟩
  · have k := motorCycles_off envs s h
    exact motorControler_on_flag env1 (setEnableAltHold (motorCycles s envs) true)
      (k.1.trans hr) rfl (k.2.2.1.trans hf)

/-- Concrete instance of `motorControler_keeps_flag`: hold ready but not enabled,
flag set, 77 cached.  After the cycle the flag is still set and 77 is still
cached. -/
theorem motorControler_keeps_flag_witness :
    (motorControler sampleEnv sampleDisabledState).2.altholdIsUpdate
      = sampleDisabledState.altholdIsUpdate
    ∧ (motorControler sampleEnv sampleDisabledState).2.output = sampleDisabledState.output :=
  have h := motorControler_keeps_flag sampleEnv sampleDisabledState (Or.inr rfl)
  ⟨h.1, h.2.2.1⟩

end RaspberryPilot
